import Mathlib

/-!
Shallow embedding of the workflow orchestration engine of the selfhealgke
repository (src/agents/orchestrator_agent.py and
src/agents/orchestrator_a2a_service.py).

Modelling conventions:
* Python dictionaries carrying JSON-like payloads become association lists
  over an inductive value type `JVal`.
* `datetime.now()` becomes an explicit `now : Nat` parameter (seconds); each
  top-level entry point runs at a single instant, which is faithful because
  the Python handlers run to completion between two clock readings that only
  ever move forward.
* The in-memory store `self.active_workflows : Dict[str, WorkflowState]` is an
  association list with first-occurrence lookup and replace-first update,
  which coincides with Python dict behaviour on duplicate-free key lists.
* `self._log_mcp_event(event_type, event_data)` appends an `Event` to a log;
  the uniform envelope (timestamp, agent id, severity) that the Python wrapper
  adds around `event_data` is not observable by any claim and is left out.
* Every assignment to `workflow_state.status` additionally records the
  `(workflow_id, old, new)` pair in a ghost `transitions` log, so that
  properties about observed stage transitions are statable.
* A2A network results are an environment parameter (`CallEnv`): each of the
  four outbound calls is either a successful payload or an error message
  (timeout / transport failure).  A missing client (service not in
  `a2a_clients`) is decided by the orchestrator state itself, exactly as
  `self.a2a_clients.get(service)` is in `_a2a_call`.
-/

namespace SelfHealGKE

/-- JSON-like values: the payload type of the Python dictionaries. -/
inductive JVal where
  | str : String → JVal
  | num : Int → JVal
  | bool : Bool → JVal
  | null : JVal
  | arr : List JVal → JVal
  | obj : List (String × JVal) → JVal
deriving Repr

/-- A Python dict with string keys, as an association list. -/
abbrev Payload := List (String × JVal)

/-- First-occurrence key lookup, the semantics of `d.get(key)`. -/
def lookupField : Payload → String → Option JVal
  | [], _ => none
  | (k, v) :: rest, key => if k = key then some v else lookupField rest key

/-- Test `isinstance(v, dict)`. -/
def JVal.isObj : JVal → Bool
  | .obj _ => true
  | _ => false

/-- Lookup with a Python-style default, the semantics of `d.get(key, default)`. -/
def getField (p : Payload) (key : String) (default : JVal) : JVal :=
  (lookupField p key).getD default

/-- Workflow stages, the exact value set of `WorkflowState.status` strings in
the source: started, analyzing, proposing, awaiting_approval, executing,
completed, failed. -/
inductive Status where
  | started
  | analyzing
  | proposing
  | awaiting_approval
  | executing
  | completed
  | failed
deriving DecidableEq, Repr

/-- FailurePayload: the Playwright failure dataclass.  Field values stay
dynamically typed (`JVal`) exactly as in Python. -/
structure FailurePayload where
  test_title : JVal
  status : JVal
  error : JVal
  retries : JVal
  trace_id : JVal
  video_url : Option JVal := none
  trace_url : Option JVal := none
  timestamp : Option JVal := none
deriving Repr

/-- The WorkflowState dataclass. -/
structure WorkflowState where
  workflow_id : String
  incident_id : String
  failure_payload : FailurePayload
  status : Status
  created_at : Nat
  updated_at : Nat
  analysis_result : Option Payload := none
  remediation_action : Option Payload := none
  approval_response : Option Payload := none
  execution_result : Option Payload := none
  topology_data : Option Payload := none
  error_message : Option String := none
deriving Repr

/-- One audit record produced by `_log_mcp_event`. -/
structure Event where
  event_type : String
  event_data : Payload
deriving Repr

/-- A ghost record of one status assignment: workflow id, old stage, new stage. -/
abbrev Trans := String × Status × Status

/-- First-occurrence lookup in the workflow store. -/
def lookupWf : List (String × WorkflowState) → String → Option WorkflowState
  | [], _ => none
  | (k, w) :: rest, wid => if k = wid then some w else lookupWf rest wid

/-- Replace the first binding of `wid`, or append a new one: the semantics of
`self.active_workflows[wid] = w`. -/
def updWf : List (String × WorkflowState) → String → WorkflowState → List (String × WorkflowState)
  | [], wid, w => [(wid, w)]
  | (k, v) :: rest, wid, w =>
      if k = wid then (wid, w) :: rest else (k, v) :: updWf rest wid w

/-- The orchestrator state: the parts of `OrchestratorAgent` that the claims
observe.  `a2a_clients` holds the service names for which an A2A client was
initialized; `server` records whether the webhook server object exists. -/
structure Orch where
  active_workflows : List (String × WorkflowState)
  rca_agents : List String
  remediation_agents : List String
  approval_agents : List String
  a2a_clients : List String
  server : Bool
  events : List Event
  transitions : List Trans
deriving Repr

def Orch.getWf (o : Orch) (wid : String) : Option WorkflowState :=
  lookupWf o.active_workflows wid

def Orch.setWf (o : Orch) (wid : String) (w : WorkflowState) : Orch :=
  { o with active_workflows := updWf o.active_workflows wid w }

def Orch.logEvent (o : Orch) (ty : String) (d : Payload) : Orch :=
  { o with events := o.events ++ [⟨ty, d⟩] }

def Orch.addTrans (o : Orch) (t : Trans) : Orch :=
  { o with transitions := o.transitions ++ [t] }

/-- Outcome of one outbound network call, supplied by the environment:
either the remote response payload or an error message (timeout or
transport/protocol failure). -/
inductive CallOutcome where
  | ok : Payload → CallOutcome
  | err : String → CallOutcome
deriving Repr

/-- The environment for one workflow cascade: the network outcome of each of
the four outbound A2A calls (analysis, proposal, approval, execution). -/
structure CallEnv where
  rca_outcome : CallOutcome
  propose_outcome : CallOutcome
  approval_outcome : CallOutcome
  execute_outcome : CallOutcome
deriving Repr

/-- Skill names: the `os.getenv` defaults of the service configuration table. -/
def rca_skill : String := "analyze_failure"

def approval_skill : String := "request_approval"

def remediation_propose_skill : String := "propose_remediation"

def remediation_execute_skill : String := "execute_remediation"

/-- The workflow timeout: `timedelta(minutes=30)`, in seconds. -/
def workflow_timeout : Nat := 1800

/-- The value `None` or a dict, as passed into outbound request payloads. -/
def optObj : Option Payload → JVal
  | some p => .obj p
  | none => .null

/-- The `dataclasses.asdict` image of a FailurePayload. -/
def failurePayloadDict (fp : FailurePayload) : JVal :=
  .obj
    [("test_title", fp.test_title), ("status", fp.status), ("error", fp.error),
     ("retries", fp.retries), ("trace_id", fp.trace_id),
     ("video_url", fp.video_url.getD .null), ("trace_url", fp.trace_url.getD .null),
     ("timestamp", fp.timestamp.getD .null)]

/-- Embedding of `_a2a_call`: if no client exists for the service the call
raises at once (no `a2a_call_failed` event); otherwise the request `payload`
and `timeout` go to the network, whose response is abstracted by `outcome`,
and a failing call logs `a2a_call_failed` before raising. -/
def a2a_call (o : Orch) (service skill : String) (_payload : Payload) (_timeout : Nat)
    (outcome : CallOutcome) (correlation_id : String) : Orch × Except String Payload :=
  if o.a2a_clients.contains service then
    match outcome with
    | .ok p => (o, Except.ok p)
    | .err m =>
        let o2 := o.logEvent "a2a_call_failed"
          [("service", .str service), ("skill", .str skill), ("error", .str m),
           ("correlation_id", .str correlation_id)]
        (o2, Except.error ("A2A call failed for " ++ service ++ "." ++ skill ++ ": " ++ m))
  else
    (o, Except.error ("No A2A client available for service " ++ service))

/-- Embedding of `_fail_workflow`. -/
def fail_workflow (o : Orch) (wid error_message : String) (now : Nat) : Orch :=
  match o.getWf wid with
  | none => o
  | some w =>
      let w2 := { w with status := .failed, updated_at := now,
                         error_message := some error_message }
      let o2 := (o.setWf wid w2).addTrans (wid, w.status, .failed)
      o2.logEvent "workflow_failed"
        [("workflow_id", .str wid), ("incident_id", .str w.incident_id),
         ("error_message", .str error_message),
         ("duration_seconds", .num ((now : Int) - (w.created_at : Int)))]

/-- Embedding of `_complete_workflow`. -/
def complete_workflow (o : Orch) (wid : String) (result : Payload) (now : Nat) : Orch :=
  match o.getWf wid with
  | none => o
  | some w =>
      let w2 := { w with status := .completed, updated_at := now,
                         execution_result := some result }
      let o2 := (o.setWf wid w2).addTrans (wid, w.status, .completed)
      o2.logEvent "workflow_completed"
        [("workflow_id", .str wid), ("incident_id", .str w.incident_id),
         ("duration_seconds", .num ((now : Int) - (w.created_at : Int))),
         ("result", .obj result)]

/-- Embedding of `_handle_execution_complete`. -/
def handle_execution_complete (o : Orch) (wid : String) (execution_result : Payload)
    (now : Nat) : Orch :=
  match o.getWf wid with
  | none => o
  | some w =>
      let w2 := { w with execution_result := some execution_result, updated_at := now }
      let o2 := o.setWf wid w2
      let o3 := o2.logEvent "execution_complete"
        [("workflow_id", .str wid),
         ("success", getField execution_result "success" .null),
         ("duration", getField execution_result "duration_seconds" .null)]
      complete_workflow o3 wid execution_result now

/-- Embedding of `_trigger_remediation_execution`. -/
def trigger_remediation_execution (o : Orch) (wid : String) (env : CallEnv)
    (now : Nat) : Orch :=
  match o.getWf wid with
  | none => o
  | some w =>
      if o.remediation_agents.isEmpty then
        fail_workflow o wid "No remediation agents available" now
      else
        let w2 := { w with status := .executing, updated_at := now }
        let o2 := (o.setWf wid w2).addTrans (wid, w.status, .executing)
        let o3 := o2.logEvent "remediation_execution_triggered"
          [("workflow_id", .str wid), ("incident_id", .str w.incident_id)]
        let execute_payload : Payload :=
          [("workflow_id", .str wid), ("incident_id", .str w.incident_id),
           ("remediation_action", optObj w.remediation_action),
           ("approval_response", optObj w.approval_response)]
        match a2a_call o3 "remediation" remediation_execute_skill execute_payload 90
            env.execute_outcome ("wf-" ++ wid) with
        | (o4, Except.ok result) => handle_execution_complete o4 wid result now
        | (o4, Except.error e) =>
            let o5 := o4.logEvent "remediation_a2a_failed_mock_fallback"
              [("workflow_id", .str wid), ("stage", .str "execute"), ("error", .str e)]
            let mock : Payload :=
              [("success", .bool true), ("duration_seconds", .num 30),
               ("actions_taken", .arr [.str "A2A communication failed, mock service restart"]),
               ("verification_status", .str "passed")]
            handle_execution_complete o5 wid mock now

/-- The test `approval_response.get('decision') == 'approve'`. -/
def decisionIsApprove (p : Payload) : Bool :=
  match lookupField p "decision" with
  | some (.str s) => s == "approve"
  | _ => false

/-- Embedding of `_handle_approval_received`. -/
def handle_approval_received (o : Orch) (wid : String) (approval_response : Payload)
    (env : CallEnv) (now : Nat) : Orch :=
  match o.getWf wid with
  | none => o
  | some w =>
      let w2 := { w with approval_response := some approval_response, updated_at := now }
      let o2 := o.setWf wid w2
      let o3 := o2.logEvent "approval_received"
        [("workflow_id", .str wid),
         ("decision", getField approval_response "decision" .null),
         ("user_id", getField approval_response "user_id" .null)]
      if decisionIsApprove approval_response then
        trigger_remediation_execution o3 wid env now
      else
        complete_workflow o3 wid
          [("status", .str "rejected"),
           ("reason", getField approval_response "reason" (.str "Rejected by approver"))]
          now

/-- Embedding of `_trigger_approval_request`. -/
def trigger_approval_request (o : Orch) (wid : String) (env : CallEnv) (now : Nat) : Orch :=
  match o.getWf wid with
  | none => o
  | some w =>
      if o.approval_agents.isEmpty then
        fail_workflow o wid "No approval agents available" now
      else
        let w2 := { w with status := .awaiting_approval, updated_at := now }
        let o2 := (o.setWf wid w2).addTrans (wid, w.status, .awaiting_approval)
        let o3 := o2.logEvent "approval_request_triggered"
          [("workflow_id", .str wid), ("incident_id", .str w.incident_id)]
        let approval_request : Payload :=
          [("workflow_id", .str wid), ("incident_id", .str w.incident_id),
           ("analysis_result", optObj w.analysis_result),
           ("remediation_action", optObj w.remediation_action),
           ("failure_payload", failurePayloadDict w.failure_payload)]
        match a2a_call o3 "approval" approval_skill approval_request 45
            env.approval_outcome ("wf-" ++ wid) with
        | (o4, Except.ok result) => handle_approval_received o4 wid result env now
        | (o4, Except.error e) =>
            let o5 := o4.logEvent "approval_a2a_failed_mock_fallback"
              [("workflow_id", .str wid), ("error", .str e)]
            let mock : Payload :=
              [("decision", .str "approve"), ("user_id", .str "system"),
               ("reason", .str "A2A communication failed, auto-approved for testing")]
            handle_approval_received o5 wid mock env now

/-- Embedding of `_handle_remediation_proposed`. -/
def handle_remediation_proposed (o : Orch) (wid : String) (remediation_action : Payload)
    (env : CallEnv) (now : Nat) : Orch :=
  match o.getWf wid with
  | none => o
  | some w =>
      let w2 := { w with remediation_action := some remediation_action, updated_at := now }
      let o2 := o.setWf wid w2
      let o3 := o2.logEvent "remediation_proposed"
        [("workflow_id", .str wid),
         ("action_type", getField remediation_action "type" .null),
         ("risk_level", getField remediation_action "risk_level" .null)]
      trigger_approval_request o3 wid env now

/-- Embedding of `_trigger_remediation_proposal`. -/
def trigger_remediation_proposal (o : Orch) (wid : String) (env : CallEnv) (now : Nat) : Orch :=
  match o.getWf wid with
  | none => o
  | some w =>
      if o.remediation_agents.isEmpty then
        fail_workflow o wid "No remediation agents available" now
      else
        let w2 := { w with status := .proposing, updated_at := now }
        let o2 := (o.setWf wid w2).addTrans (wid, w.status, .proposing)
        let o3 := o2.logEvent "remediation_proposal_triggered"
          [("workflow_id", .str wid), ("incident_id", .str w.incident_id)]
        let propose_payload : Payload :=
          [("workflow_id", .str wid), ("incident_id", .str w.incident_id),
           ("analysis_result", optObj w.analysis_result),
           ("topology_data", optObj w.topology_data)]
        match a2a_call o3 "remediation" remediation_propose_skill propose_payload 60
            env.propose_outcome ("wf-" ++ wid) with
        | (o4, Except.ok result) => handle_remediation_proposed o4 wid result env now
        | (o4, Except.error e) =>
            let o5 := o4.logEvent "remediation_a2a_failed_mock_fallback"
              [("workflow_id", .str wid), ("stage", .str "propose"), ("error", .str e)]
            let mock : Payload :=
              [("type", .str "restart_service"),
               ("service", getField (w.analysis_result.getD []) "failing_service"
                            (.str "unknown-service")),
               ("risk_level", .str "medium"),
               ("description", .str "A2A communication failed, using mock remediation proposal")]
            handle_remediation_proposed o5 wid mock env now

/-- Embedding of `_handle_analysis_complete`.  Note: the handler stores the
analysis result and then unconditionally triggers the remediation proposal;
the classification field is read only for the audit event. -/
def handle_analysis_complete (o : Orch) (wid : String) (analysis_result : Payload)
    (env : CallEnv) (now : Nat) : Orch :=
  match o.getWf wid with
  | none => o
  | some w =>
      let w2 := { w with analysis_result := some analysis_result, updated_at := now }
      let o2 := o.setWf wid w2
      let o3 := o2.logEvent "analysis_complete"
        [("workflow_id", .str wid),
         ("classification", getField analysis_result "classification" .null),
         ("confidence_score", getField analysis_result "confidence_score" .null)]
      trigger_remediation_proposal o3 wid env now

/-- The dict access `d.get(key, default)` lifted to a `JVal` that the caller
guarantees to be an object (the Playwright `error` field is validated to be a
dict before this point in the source). -/
def jget (j : JVal) (key : String) (default : JVal) : JVal :=
  match j with
  | .obj fields => getField fields key default
  | _ => default

/-- Embedding of `_trigger_rca_analysis`. -/
def trigger_rca_analysis (o : Orch) (wid : String) (env : CallEnv) (now : Nat) : Orch :=
  match o.getWf wid with
  | none => o
  | some w =>
      if o.rca_agents.isEmpty then
        fail_workflow o wid "No RCA agents available" now
      else
        let w2 := { w with status := .analyzing, updated_at := now }
        let o2 := (o.setWf wid w2).addTrans (wid, w.status, .analyzing)
        let fp := w.failure_payload
        let analysis_request : Payload :=
          [("failure_payload", .obj
            [("test_title", fp.test_title), ("status", fp.status),
             ("error_message", jget fp.error "message" fp.error),
             ("error_stack", jget fp.error "stack" (.str "")),
             ("error_type", jget fp.error "type" (.str "Error")),
             ("retries", fp.retries), ("trace_id", fp.trace_id),
             ("timestamp", fp.timestamp.getD .null)])]
        let o3 := o2.logEvent "rca_analysis_triggered"
          [("workflow_id", .str wid), ("incident_id", .str w.incident_id),
           ("trace_id", fp.trace_id)]
        match a2a_call o3 "rca" rca_skill analysis_request 45 env.rca_outcome
            ("wf-" ++ wid) with
        | (o4, Except.ok result) => handle_analysis_complete o4 wid result env now
        | (o4, Except.error e) =>
            let o5 := o4.logEvent "rca_a2a_failed_mock_fallback"
              [("workflow_id", .str wid), ("error", .str e)]
            let mock : Payload :=
              [("classification", .str "Backend Error"),
               ("failing_service", .str "unknown-service"),
               ("summary", .str "A2A communication failed, using mock analysis"),
               ("confidence_score", .num 0), ("evidence_count", .num 1)]
            handle_analysis_complete o5 wid mock env now

/-- Embedding of `_start_incident_workflow`.  The fresh uuid is passed in as
`wid`; the incident id keeps its shape (timestamp plus a prefix of the
workflow id).  The exception path that returns `None` is unreachable in the
model, so the started workflow id is returned directly. -/
def start_incident_workflow (o : Orch) (failure_payload : FailurePayload) (wid : String)
    (env : CallEnv) (now : Nat) : Orch × String :=
  let incident_id := "inc-" ++ toString now ++ "-" ++ (wid.take 8)
  let w : WorkflowState :=
    { workflow_id := wid, incident_id := incident_id,
      failure_payload := failure_payload, status := .started,
      created_at := now, updated_at := now }
  let o2 := o.setWf wid w
  let o3 := o2.logEvent "workflow_started"
    [("workflow_id", .str wid), ("incident_id", .str incident_id),
     ("test_title", failure_payload.test_title),
     ("trace_id", failure_payload.trace_id),
     ("failure_status", failure_payload.status)]
  (trigger_rca_analysis o3 wid env now, wid)

/-- Embedding of `_validate_failure_payload`: all required fields present and
the error field is a dict. -/
def validate_failure_payload (payload : Payload) : Bool :=
  ["test_title", "status", "error", "retries", "trace_id"].all
    (fun f => (lookupField payload f).isSome) &&
  (match lookupField payload "error" with
   | some v => v.isObj
   | none => false)

/-- HTTP responses of the webhook server. -/
inductive WebResponse where
  | json : Nat → Payload → WebResponse
  | text : Nat → String → WebResponse
deriving Repr

/-- Embedding of `_handle_playwright_webhook` on an already-parsed JSON body.
The fresh uuid that the handler would draw is `fresh_wid` (also used for the
`trace_id` default, which in the source is a second fresh uuid). -/
def handle_playwright_webhook (o : Orch) (payload_data : Payload) (fresh_wid : String)
    (env : CallEnv) (now : Nat) : Orch × WebResponse :=
  if validate_failure_payload payload_data then
    let fp : FailurePayload :=
      { test_title := getField payload_data "test_title" (.str "Unknown Test")
        status := getField payload_data "status" (.str "failed")
        error := getField payload_data "error" (.obj [])
        retries := getField payload_data "retries" (.num 0)
        trace_id := getField payload_data "trace_id" (.str fresh_wid)
        video_url := lookupField payload_data "video_url"
        trace_url := lookupField payload_data "trace_url"
        timestamp := some (getField payload_data "timestamp" (.str (toString now))) }
    let (o2, wid) := start_incident_workflow o fp fresh_wid env now
    if wid.isEmpty then (o2, .text 500 "Failed to start workflow")
    else (o2, .json 200
      [("status", .str "success"), ("workflow_id", .str wid),
       ("message", .str "Incident response workflow started")])
  else
    (o, .text 400 "Invalid payload")

/-- Embedding of `cleanup`: one final pass failing every workflow id still in
the store with "System shutdown", then the shutdown audit event. -/
def cleanup (o : Orch) (now : Nat) : Orch :=
  let ks := o.active_workflows.map Prod.fst
  let o2 := ks.foldl (fun acc wid => fail_workflow acc wid "System shutdown" now) o
  o2.logEvent "orchestrator_shutdown"
    [("active_workflows_count", .num (o2.active_workflows.length : Int))]

/-- The staleness test `(now - w.updated_at) > workflow_timeout` of the
supervisor and the health check (Nat subtraction truncates at zero exactly as
a negative timedelta fails the strict comparison). -/
def stale (now : Nat) (w : WorkflowState) : Bool :=
  decide (workflow_timeout < now - w.updated_at)

/-- Embedding of `health_check`: not read-only — it fails every stored
workflow whose snapshot is stale, then reports healthy. -/
def health_check (o : Orch) (now : Nat) : Orch × Bool :=
  if o.server then
    let stuck := (o.active_workflows.filter (fun p => stale now p.2)).map
      (fun p => p.2.workflow_id)
    (stuck.foldl (fun acc wid => fail_workflow acc wid "Workflow timeout" now) o, true)
  else
    (o, false)

/-- Embedding of one iteration of the `_monitor_workflows` loop body (one
supervisor tick over a snapshot of the store). -/
def monitor_workflows_tick (o : Orch) (now : Nat) : Orch :=
  o.active_workflows.foldl
    (fun acc p => if stale now p.2 then fail_workflow acc p.1 "Workflow timeout" now else acc) o

/-- Embedding of `_handle_update_workflow_status` from the A2A service.
Missing `workflow_id`/`status` are modelled as the empty string (Python
falsiness). -/
def handle_update_workflow_status (o : Orch) (task_id workflow_id status : String)
    (result_data : Payload) (env : CallEnv) (now : Nat) : Orch × Except String Payload :=
  if workflow_id = "" ∨ status = "" then
    (o, Except.error "Missing workflow_id or status in request")
  else
    let okResp : Payload :=
      [("task_id", .str task_id), ("workflow_id", .str workflow_id),
       ("status", .str "updated"),
       ("message", .str ("Workflow " ++ workflow_id ++ " status updated to " ++ status))]
    if status = "analysis_complete" then
      (handle_analysis_complete o workflow_id result_data env now, Except.ok okResp)
    else if status = "remediation_proposed" then
      (handle_remediation_proposed o workflow_id result_data env now, Except.ok okResp)
    else if status = "approval_received" then
      (handle_approval_received o workflow_id result_data env now, Except.ok okResp)
    else if status = "execution_complete" then
      (handle_execution_complete o workflow_id result_data now, Except.ok okResp)
    else if status = "failed" then
      let msg := match lookupField result_data "error_message" with
        | some (.str s) => s
        | _ => "Unknown error"
      (fail_workflow o workflow_id msg now, Except.ok okResp)
    else
      (o, Except.error ("Unknown status: " ++ status))

/-- Embedding of `_handle_cancel_workflow` from the A2A service. -/
def handle_cancel_workflow (o : Orch) (task_id workflow_id reason : String)
    (now : Nat) : Orch × Except String Payload :=
  if workflow_id = "" then
    (o, Except.error "Missing workflow_id in request")
  else
    (fail_workflow o workflow_id ("Cancelled: " ++ reason) now,
     Except.ok
       [("task_id", .str task_id), ("workflow_id", .str workflow_id),
        ("status", .str "cancelled")])

/-- The external operations that mutate the orchestrator state. -/
inductive Op where
  | webhook : Payload → String → CallEnv → Op
  | update_status : String → String → String → Payload → CallEnv → Op
  | cancel_workflow : String → String → String → Op
  | health : Op
  | tick : Op
  | shutdown : Op

/-- Dispatch one external operation at instant `now`, keeping only the
resulting orchestrator state. -/
def applyOp (o : Orch) (op : Op) (now : Nat) : Orch :=
  match op with
  | .webhook body wid env => (handle_playwright_webhook o body wid env now).1
  | .update_status t wid st rd env => (handle_update_workflow_status o t wid st rd env now).1
  | .cancel_workflow t wid reason => (handle_cancel_workflow o t wid reason now).1
  | .health => (health_check o now).1
  | .tick => monitor_workflows_tick o now
  | .shutdown => cleanup o now

/-- Modelled from the spec, section 4.1: the edge set of the specified state
machine (forward edges only). -/
def specEdge : Status → Status → Bool
  | .started, .analyzing => true
  | .analyzing, .proposing => true
  | .analyzing, .completed => true
  | .proposing, .awaiting_approval => true
  | .awaiting_approval, .executing => true
  | .awaiting_approval, .completed => true
  | .executing, .completed => true
  | _, _ => false

/-- Terminal stages per the spec and the source docstring. -/
def isTerminal : Status → Bool
  | .completed => true
  | .failed => true
  | _ => false

/-- Modelled from the spec: the transition relation claimed in section 8 —
a section 4.1 edge, or a jump to Failed from a non-terminal stage. -/
def claimedOK (a b : Status) : Bool :=
  specEdge a b || (b == .failed && !(isTerminal a))

/-! Association-list lemmas for the workflow store. -/

@[simp]
theorem lookupWf_updWf_self (l : List (String × WorkflowState)) (k : String)
    (w : WorkflowState) : lookupWf (updWf l k w) k = some w := by
  induction l with
  | nil => simp [updWf, lookupWf]
  | cons p rest ih =>
      by_cases h : p.1 = k
      · simp [updWf, lookupWf, h]
      · simp [updWf, lookupWf, h, ih]

theorem lookupWf_updWf_ne (l : List (String × WorkflowState)) (k k' : String)
    (w : WorkflowState) (h : k' ≠ k) :
    lookupWf (updWf l k w) k' = lookupWf l k' := by
  induction l with
  | nil => simp [updWf, lookupWf, Ne.symm h]
  | cons p rest ih =>
      obtain ⟨a, b⟩ := p
      by_cases hp : a = k
      · subst hp
        simp [updWf, lookupWf, Ne.symm h]
      · simp [updWf, lookupWf, hp, ih]

theorem mem_updWf (l : List (String × WorkflowState)) (k : String) (w : WorkflowState)
    (p : String × WorkflowState) (h : p ∈ updWf l k w) : p = (k, w) ∨ p ∈ l := by
  induction l with
  | nil => simpa [updWf] using h
  | cons q rest ih =>
      by_cases hq : q.1 = k
      · simp only [updWf, hq, if_pos rfl] at h
        rcases List.mem_cons.mp h with h1 | h2
        · exact Or.inl h1
        · exact Or.inr (List.mem_cons_of_mem _ h2)
      · simp only [updWf, hq, if_neg hq] at h
        rcases List.mem_cons.mp h with h1 | h2
        · exact Or.inr (h1 ▸ List.mem_cons_self _ _)
        · rcases ih h2 with h3 | h4
          · exact Or.inl h3
          · exact Or.inr (List.mem_cons_of_mem _ h4)

theorem map_fst_updWf (l : List (String × WorkflowState)) (k : String) (w : WorkflowState)
    (h : lookupWf l k = some v) :
    (updWf l k w).map Prod.fst = l.map Prod.fst := by
  induction l with
  | nil => simp [lookupWf] at h
  | cons q rest ih =>
      by_cases hq : q.1 = k
      · simp [updWf, hq]
      · simp only [lookupWf, hq, if_neg hq] at h
        simp [updWf, hq, ih h]

theorem lookupWf_mem (l : List (String × WorkflowState)) (k : String) (w : WorkflowState)
    (h : lookupWf l k = some w) : (k, w) ∈ l := by
  induction l with
  | nil => simp [lookupWf] at h
  | cons q rest ih =>
      obtain ⟨a, b⟩ := q
      by_cases hq : a = k
      · subst hq
        simp only [lookupWf, if_pos rfl] at h
        obtain rfl := Option.some.inj h
        exact List.mem_cons_self _ _
      · simp only [lookupWf, if_neg hq] at h
        exact List.mem_cons_of_mem _ (ih h)

/-! Accessor simp lemmas. -/

@[simp]
theorem getWf_setWf_self (o : Orch) (wid : String) (w : WorkflowState) :
    (o.setWf wid w).getWf wid = some w := by
  simp [Orch.getWf, Orch.setWf]

theorem getWf_setWf_ne (o : Orch) (wid wid' : String) (w : WorkflowState) (h : wid' ≠ wid) :
    (o.setWf wid w).getWf wid' = o.getWf wid' := by
  simp [Orch.getWf, Orch.setWf, lookupWf_updWf_ne _ _ _ _ h]

@[simp]
theorem getWf_logEvent (o : Orch) (ty : String) (d : Payload) (wid : String) :
    (o.logEvent ty d).getWf wid = o.getWf wid := rfl

@[simp]
theorem getWf_addTrans (o : Orch) (t : Trans) (wid : String) :
    (o.addTrans t).getWf wid = o.getWf wid := rfl

@[simp]
theorem events_setWf (o : Orch) (wid : String) (w : WorkflowState) :
    (o.setWf wid w).events = o.events := rfl

@[simp]
theorem events_addTrans (o : Orch) (t : Trans) :
    (o.addTrans t).events = o.events := rfl

@[simp]
theorem events_logEvent (o : Orch) (ty : String) (d : Payload) :
    (o.logEvent ty d).events = o.events ++ [⟨ty, d⟩] := rfl

@[simp]
theorem transitions_setWf (o : Orch) (wid : String) (w : WorkflowState) :
    (o.setWf wid w).transitions = o.transitions := rfl

@[simp]
theorem transitions_logEvent (o : Orch) (ty : String) (d : Payload) :
    (o.logEvent ty d).transitions = o.transitions := rfl

@[simp]
theorem transitions_addTrans (o : Orch) (t : Trans) :
    (o.addTrans t).transitions = o.transitions ++ [t] := rfl

@[simp]
theorem rca_agents_setWf (o : Orch) (wid : String) (w : WorkflowState) :
    (o.setWf wid w).rca_agents = o.rca_agents := rfl

@[simp]
theorem remediation_agents_setWf (o : Orch) (wid : String) (w : WorkflowState) :
    (o.setWf wid w).remediation_agents = o.remediation_agents := rfl

@[simp]
theorem approval_agents_setWf (o : Orch) (wid : String) (w : WorkflowState) :
    (o.setWf wid w).approval_agents = o.approval_agents := rfl

@[simp]
theorem a2a_clients_setWf (o : Orch) (wid : String) (w : WorkflowState) :
    (o.setWf wid w).a2a_clients = o.a2a_clients := rfl

@[simp]
theorem rca_agents_logEvent (o : Orch) (ty : String) (d : Payload) :
    (o.logEvent ty d).rca_agents = o.rca_agents := rfl

@[simp]
theorem remediation_agents_logEvent (o : Orch) (ty : String) (d : Payload) :
    (o.logEvent ty d).remediation_agents = o.remediation_agents := rfl

@[simp]
theorem approval_agents_logEvent (o : Orch) (ty : String) (d : Payload) :
    (o.logEvent ty d).approval_agents = o.approval_agents := rfl

@[simp]
theorem a2a_clients_logEvent (o : Orch) (ty : String) (d : Payload) :
    (o.logEvent ty d).a2a_clients = o.a2a_clients := rfl

@[simp]
theorem rca_agents_addTrans (o : Orch) (t : Trans) :
    (o.addTrans t).rca_agents = o.rca_agents := rfl

@[simp]
theorem remediation_agents_addTrans (o : Orch) (t : Trans) :
    (o.addTrans t).remediation_agents = o.remediation_agents := rfl

@[simp]
theorem approval_agents_addTrans (o : Orch) (t : Trans) :
    (o.addTrans t).approval_agents = o.approval_agents := rfl

@[simp]
theorem a2a_clients_addTrans (o : Orch) (t : Trans) :
    (o.addTrans t).a2a_clients = o.a2a_clients := rfl

/-! Transition-log monotonicity: every handler only ever appends to the
ghost transition log. -/

theorem a2a_call_fst_transitions (o : Orch) (s sk : String) (p : Payload) (t : Nat)
    (oc : CallOutcome) (cid : String) :
    (a2a_call o s sk p t oc cid).1.transitions = o.transitions := by
  unfold a2a_call
  cases oc <;> by_cases h : s ∈ o.a2a_clients <;> simp [h]

theorem fail_workflow_transPrefix (o : Orch) (wid m : String) (now : Nat) :
    o.transitions <+: (fail_workflow o wid m now).transitions := by
  unfold fail_workflow
  cases h : o.getWf wid with
  | none => exact List.prefix_rfl
  | some w => simp

theorem complete_workflow_transPrefix (o : Orch) (wid : String) (r : Payload) (now : Nat) :
    o.transitions <+: (complete_workflow o wid r now).transitions := by
  unfold complete_workflow
  cases h : o.getWf wid with
  | none => exact List.prefix_rfl
  | some w => simp

theorem handle_execution_complete_transPrefix (o : Orch) (wid : String) (r : Payload)
    (now : Nat) :
    o.transitions <+: (handle_execution_complete o wid r now).transitions := by
  unfold handle_execution_complete
  cases h : o.getWf wid with
  | none => exact List.prefix_rfl
  | some w =>
      refine List.IsPrefix.trans ?_ (complete_workflow_transPrefix _ _ _ _)
      simp

theorem trigger_remediation_execution_transPrefix (o : Orch) (wid : String) (env : CallEnv)
    (now : Nat) :
    o.transitions <+: (trigger_remediation_execution o wid env now).transitions := by
  unfold trigger_remediation_execution
  cases h : o.getWf wid with
  | none => exact List.prefix_rfl
  | some w =>
      cases he : o.remediation_agents.isEmpty
      · cases hc : o.a2a_clients.contains "remediation" <;>
          cases ho : env.execute_outcome <;>
          · simp only [he, Bool.false_eq_true, if_false, a2a_call, hc, ho,
              a2a_clients_setWf, a2a_clients_logEvent, a2a_clients_addTrans]
            refine List.IsPrefix.trans ?_ (handle_execution_complete_transPrefix _ _ _ _)
            simp
      · simpa [he] using fail_workflow_transPrefix o wid "No remediation agents available" now

theorem handle_approval_received_transPrefix (o : Orch) (wid : String) (r : Payload)
    (env : CallEnv) (now : Nat) :
    o.transitions <+: (handle_approval_received o wid r env now).transitions := by
  unfold handle_approval_received
  cases h : o.getWf wid with
  | none => exact List.prefix_rfl
  | some w =>
      cases hd : decisionIsApprove r
      · simp only [hd, Bool.false_eq_true, if_false]
        refine List.IsPrefix.trans ?_ (complete_workflow_transPrefix _ _ _ _)
        simp
      · simp only [hd, if_true]
        refine List.IsPrefix.trans ?_ (trigger_remediation_execution_transPrefix _ wid env now)
        simp

theorem trigger_approval_request_transPrefix (o : Orch) (wid : String) (env : CallEnv)
    (now : Nat) :
    o.transitions <+: (trigger_approval_request o wid env now).transitions := by
  unfold trigger_approval_request
  cases h : o.getWf wid with
  | none => exact List.prefix_rfl
  | some w =>
      cases he : o.approval_agents.isEmpty
      · cases hc : o.a2a_clients.contains "approval" <;>
          cases ho : env.approval_outcome <;>
          · simp only [he, Bool.false_eq_true, if_false, a2a_call, hc, ho,
              a2a_clients_setWf, a2a_clients_logEvent, a2a_clients_addTrans]
            refine List.IsPrefix.trans ?_ (handle_approval_received_transPrefix _ _ _ _ _)
            simp
      · simpa [he] using fail_workflow_transPrefix o wid "No approval agents available" now

theorem handle_remediation_proposed_transPrefix (o : Orch) (wid : String) (r : Payload)
    (env : CallEnv) (now : Nat) :
    o.transitions <+: (handle_remediation_proposed o wid r env now).transitions := by
  unfold handle_remediation_proposed
  cases h : o.getWf wid with
  | none => exact List.prefix_rfl
  | some w =>
      refine List.IsPrefix.trans ?_ (trigger_approval_request_transPrefix _ wid env now)
      simp

theorem trigger_remediation_proposal_transPrefix (o : Orch) (wid : String) (env : CallEnv)
    (now : Nat) :
    o.transitions <+: (trigger_remediation_proposal o wid env now).transitions := by
  unfold trigger_remediation_proposal
  cases h : o.getWf wid with
  | none => exact List.prefix_rfl
  | some w =>
      cases he : o.remediation_agents.isEmpty
      · cases hc : o.a2a_clients.contains "remediation" <;>
          cases ho : env.propose_outcome <;>
          · simp only [he, Bool.false_eq_true, if_false, a2a_call, hc, ho,
              a2a_clients_setWf, a2a_clients_logEvent, a2a_clients_addTrans]
            refine List.IsPrefix.trans ?_ (handle_remediation_proposed_transPrefix _ _ _ _ _)
            simp
      · simpa [he] using fail_workflow_transPrefix o wid "No remediation agents available" now

theorem handle_analysis_complete_transPrefix (o : Orch) (wid : String) (r : Payload)
    (env : CallEnv) (now : Nat) :
    o.transitions <+: (handle_analysis_complete o wid r env now).transitions := by
  unfold handle_analysis_complete
  cases h : o.getWf wid with
  | none => exact List.prefix_rfl
  | some w =>
      refine List.IsPrefix.trans ?_ (trigger_remediation_proposal_transPrefix _ wid env now)
      simp

theorem trigger_rca_analysis_transPrefix (o : Orch) (wid : String) (env : CallEnv)
    (now : Nat) :
    o.transitions <+: (trigger_rca_analysis o wid env now).transitions := by
  unfold trigger_rca_analysis
  cases h : o.getWf wid with
  | none => exact List.prefix_rfl
  | some w =>
      cases he : o.rca_agents.isEmpty
      · cases hc : o.a2a_clients.contains "rca" <;>
          cases ho : env.rca_outcome <;>
          · simp only [he, Bool.false_eq_true, if_false, a2a_call, hc, ho,
              a2a_clients_setWf, a2a_clients_logEvent, a2a_clients_addTrans]
            refine List.IsPrefix.trans ?_ (handle_analysis_complete_transPrefix _ _ _ _ _)
            simp
      · simpa [he] using fail_workflow_transPrefix o wid "No RCA agents available" now

/-! The audit-log view that claim C5 is about: events of the kind emitted by
the analysis-stage fallback. -/

def rcaFallbackEvents (o : Orch) : List Event :=
  o.events.filter (fun e => e.event_type == "rca_a2a_failed_mock_fallback")

theorem rcaFallbackEvents_logEvent (o : Orch) (ty : String) (d : Payload)
    (h : (ty == "rca_a2a_failed_mock_fallback") = false) :
    rcaFallbackEvents (o.logEvent ty d) = rcaFallbackEvents o := by
  simp [rcaFallbackEvents, Orch.logEvent, List.filter_append, h]

@[simp]
theorem rcaFallbackEvents_setWf (o : Orch) (wid : String) (w : WorkflowState) :
    rcaFallbackEvents (o.setWf wid w) = rcaFallbackEvents o := rfl

@[simp]
theorem rcaFallbackEvents_addTrans (o : Orch) (t : Trans) :
    rcaFallbackEvents (o.addTrans t) = rcaFallbackEvents o := rfl

theorem a2a_call_fst_rcaFb (o : Orch) (s sk : String) (p : Payload) (t : Nat)
    (oc : CallOutcome) (cid : String) :
    rcaFallbackEvents (a2a_call o s sk p t oc cid).1 = rcaFallbackEvents o := by
  unfold a2a_call
  cases oc <;> by_cases h : s ∈ o.a2a_clients <;>
    simp [h, rcaFallbackEvents_logEvent]

theorem fail_workflow_rcaFb (o : Orch) (wid m : String) (now : Nat) :
    rcaFallbackEvents (fail_workflow o wid m now) = rcaFallbackEvents o := by
  unfold fail_workflow
  cases h : o.getWf wid with
  | none => rfl
  | some w => simp [rcaFallbackEvents_logEvent]

theorem complete_workflow_rcaFb (o : Orch) (wid : String) (r : Payload) (now : Nat) :
    rcaFallbackEvents (complete_workflow o wid r now) = rcaFallbackEvents o := by
  unfold complete_workflow
  cases h : o.getWf wid with
  | none => rfl
  | some w => simp [rcaFallbackEvents_logEvent]

theorem handle_execution_complete_rcaFb (o : Orch) (wid : String) (r : Payload)
    (now : Nat) :
    rcaFallbackEvents (handle_execution_complete o wid r now) = rcaFallbackEvents o := by
  unfold handle_execution_complete
  cases h : o.getWf wid with
  | none => rfl
  | some w => simp [complete_workflow_rcaFb, rcaFallbackEvents_logEvent]

theorem trigger_remediation_execution_rcaFb (o : Orch) (wid : String) (env : CallEnv)
    (now : Nat) :
    rcaFallbackEvents (trigger_remediation_execution o wid env now) = rcaFallbackEvents o := by
  unfold trigger_remediation_execution
  cases h : o.getWf wid with
  | none => rfl
  | some w =>
      cases he : o.remediation_agents.isEmpty
      · cases hc : o.a2a_clients.contains "remediation" <;>
          cases ho : env.execute_outcome <;>
          · simp only [he, Bool.false_eq_true, if_false, a2a_call, hc, ho,
              a2a_clients_setWf, a2a_clients_logEvent, a2a_clients_addTrans]
            simp [handle_execution_complete_rcaFb, rcaFallbackEvents_logEvent]
      · simp [he, fail_workflow_rcaFb]

theorem handle_approval_received_rcaFb (o : Orch) (wid : String) (r : Payload)
    (env : CallEnv) (now : Nat) :
    rcaFallbackEvents (handle_approval_received o wid r env now) = rcaFallbackEvents o := by
  unfold handle_approval_received
  cases h : o.getWf wid with
  | none => rfl
  | some w =>
      cases hd : decisionIsApprove r <;>
        simp [hd, trigger_remediation_execution_rcaFb, complete_workflow_rcaFb,
          rcaFallbackEvents_logEvent]

theorem trigger_approval_request_rcaFb (o : Orch) (wid : String) (env : CallEnv)
    (now : Nat) :
    rcaFallbackEvents (trigger_approval_request o wid env now) = rcaFallbackEvents o := by
  unfold trigger_approval_request
  cases h : o.getWf wid with
  | none => rfl
  | some w =>
      cases he : o.approval_agents.isEmpty
      · cases hc : o.a2a_clients.contains "approval" <;>
          cases ho : env.approval_outcome <;>
          · simp only [he, Bool.false_eq_true, if_false, a2a_call, hc, ho,
              a2a_clients_setWf, a2a_clients_logEvent, a2a_clients_addTrans]
            simp [handle_approval_received_rcaFb, rcaFallbackEvents_logEvent]
      · simp [he, fail_workflow_rcaFb]

theorem handle_remediation_proposed_rcaFb (o : Orch) (wid : String) (r : Payload)
    (env : CallEnv) (now : Nat) :
    rcaFallbackEvents (handle_remediation_proposed o wid r env now) = rcaFallbackEvents o := by
  unfold handle_remediation_proposed
  cases h : o.getWf wid with
  | none => rfl
  | some w => simp [trigger_approval_request_rcaFb, rcaFallbackEvents_logEvent]

theorem trigger_remediation_proposal_rcaFb (o : Orch) (wid : String) (env : CallEnv)
    (now : Nat) :
    rcaFallbackEvents (trigger_remediation_proposal o wid env now) = rcaFallbackEvents o := by
  unfold trigger_remediation_proposal
  cases h : o.getWf wid with
  | none => rfl
  | some w =>
      cases he : o.remediation_agents.isEmpty
      · cases hc : o.a2a_clients.contains "remediation" <;>
          cases ho : env.propose_outcome <;>
          · simp only [he, Bool.false_eq_true, if_false, a2a_call, hc, ho,
              a2a_clients_setWf, a2a_clients_logEvent, a2a_clients_addTrans]
            simp [handle_remediation_proposed_rcaFb, rcaFallbackEvents_logEvent]
      · simp [he, fail_workflow_rcaFb]

theorem handle_analysis_complete_rcaFb (o : Orch) (wid : String) (r : Payload)
    (env : CallEnv) (now : Nat) :
    rcaFallbackEvents (handle_analysis_complete o wid r env now) = rcaFallbackEvents o := by
  unfold handle_analysis_complete
  cases h : o.getWf wid with
  | none => rfl
  | some w => simp [trigger_remediation_proposal_rcaFb, rcaFallbackEvents_logEvent]

/-! The first status assignments recorded by the analysis-stage handlers. -/

theorem trigger_remediation_proposal_firstTrans (o : Orch) (wid : String) (env : CallEnv)
    (now : Nat) (l : List Trans) (s : Status) (w : WorkflowState)
    (h : o.getWf wid = some w) (hrem : o.remediation_agents.isEmpty = false)
    (hl : o.transitions = l) (hs : w.status = s) :
    l ++ [(wid, s, Status.proposing)] <+:
      (trigger_remediation_proposal o wid env now).transitions := by
  subst hl
  subst hs
  unfold trigger_remediation_proposal
  simp only [h]
  cases hc : o.a2a_clients.contains "remediation" <;> cases ho : env.propose_outcome <;>
    · simp only [hrem, Bool.false_eq_true, if_false, a2a_call, hc, ho,
        a2a_clients_setWf, a2a_clients_logEvent, a2a_clients_addTrans]
      refine List.IsPrefix.trans ?_ (handle_remediation_proposed_transPrefix _ _ _ _ _)
      simp

theorem handle_analysis_complete_firstTrans (o : Orch) (wid : String) (d : Payload)
    (env : CallEnv) (now : Nat) (l : List Trans) (s : Status) (w : WorkflowState)
    (h : o.getWf wid = some w) (hrem : o.remediation_agents.isEmpty = false)
    (hl : o.transitions = l) (hs : w.status = s) :
    l ++ [(wid, s, Status.proposing)] <+:
      (handle_analysis_complete o wid d env now).transitions := by
  subst hl
  subst hs
  unfold handle_analysis_complete
  simp only [h]
  apply trigger_remediation_proposal_firstTrans
  · exact getWf_setWf_self _ _ _
  · simpa using hrem
  · simp
  · rfl

theorem trigger_rca_analysis_twoTrans (o : Orch) (wid : String) (env : CallEnv)
    (now : Nat) (w : WorkflowState) (h : o.getWf wid = some w)
    (hrca : o.rca_agents.isEmpty = false)
    (hrem : o.remediation_agents.isEmpty = false) :
    o.transitions ++ [(wid, w.status, Status.analyzing), (wid, Status.analyzing, Status.proposing)]
      <+: (trigger_rca_analysis o wid env now).transitions := by
  have hsplit : o.transitions ++
      [(wid, w.status, Status.analyzing), (wid, Status.analyzing, Status.proposing)] =
      (o.transitions ++ [(wid, w.status, Status.analyzing)]) ++
        [(wid, Status.analyzing, Status.proposing)] := by simp
  rw [hsplit]
  unfold trigger_rca_analysis
  simp only [h]
  cases hc : o.a2a_clients.contains "rca" <;> cases ho : env.rca_outcome <;>
    · simp only [hrca, Bool.false_eq_true, if_false, a2a_call, hc, ho,
        a2a_clients_setWf, a2a_clients_logEvent, a2a_clients_addTrans]
      apply handle_analysis_complete_firstTrans
      · exact getWf_setWf_self _ _ _
      · simpa using hrem
      · simp
      · rfl

theorem rcaFallbackEvents_logEvent_self (o : Orch) (d : Payload) :
    rcaFallbackEvents (o.logEvent "rca_a2a_failed_mock_fallback" d) =
      rcaFallbackEvents o ++ [⟨"rca_a2a_failed_mock_fallback", d⟩] := by
  simp [rcaFallbackEvents, Orch.logEvent, List.filter_append]

/-! Concrete scenario fixtures. -/

/-- A concrete Playwright failure signal (the example of spec section 8). -/
def sampleFailure : FailurePayload :=
  { test_title := .str "checkout test", status := .str "failed",
    error := .obj
      [("message", .str "timeout"), ("stack", .str ""), ("kind", .str "TimeoutError")],
    retries := .num 2, trace_id := .str "t-1" }

/-- A workflow record sitting in the Started stage. -/
def wfStarted : WorkflowState :=
  { workflow_id := "w1", incident_id := "inc-1", failure_payload := sampleFailure,
    status := .started, created_at := 0, updated_at := 0 }

/-- A workflow record sitting in the Analyzing stage. -/
def wfAnalyzing : WorkflowState :=
  { workflow_id := "w1", incident_id := "inc-1", failure_payload := sampleFailure,
    status := .analyzing, created_at := 0, updated_at := 10 }

/-- An orchestrator state with the given store and A2A clients; the discovered
agent lists are the hardcoded ones of `_discover_agents`. -/
def mkOrch (ws : List (String × WorkflowState)) (clients : List String) : Orch :=
  { active_workflows := ws,
    rca_agents := ["rca-agent-localhost:8000"],
    remediation_agents := ["remediation-agent-localhost:8001"],
    approval_agents := ["approval-agent-localhost:8002"],
    a2a_clients := clients, server := true, events := [], transitions := [] }

/-- An environment in which every outbound call times out. -/
def envDown : CallEnv :=
  { rca_outcome := .err "Request timeout", propose_outcome := .err "Request timeout",
    approval_outcome := .err "Request timeout", execute_outcome := .err "Request timeout" }

/-! Claim C1. -/

/-- C1 counterexample: an analysis result whose classification is a value
meaning no action ("no action") arrives for a workflow in the Analyzing
stage.  The claim requires a direct transition to Completed with no proposal
stage entered; the code instead records Analyzing to Proposing as the very
next transition and never records a direct Analyzing to Completed edge. -/
theorem C1_counterexample :
    ((handle_analysis_complete (mkOrch [("w1", wfAnalyzing)] []) "w1"
        [("classification", JVal.str "no action")] envDown 20).transitions.take 1 =
      [("w1", Status.analyzing, Status.proposing)]) ∧
    (("w1", Status.analyzing, Status.completed) ∉
      (handle_analysis_complete (mkOrch [("w1", wfAnalyzing)] []) "w1"
        [("classification", JVal.str "no action")] envDown 20).transitions) := by
  constructor
  · rfl
  · decide

/-- C1 (amended): when an analysis result arrives for a workflow present in
the store, the handler does not inspect the classification field at all: for
every analysis payload — including any value meaning "no action" — the
workflow transitions from its current stage to Proposing (given the
discovered remediation agent list is nonempty, as it always is after
`_discover_agents`); no classification value transitions the workflow
directly to Completed. -/
theorem C1_analysis_always_proposes (o : Orch) (wid : String) (d : Payload)
    (env : CallEnv) (now : Nat) (w : WorkflowState)
    (h : o.getWf wid = some w) (hrem : o.remediation_agents.isEmpty = false) :
    o.transitions ++ [(wid, w.status, Status.proposing)] <+:
      (handle_analysis_complete o wid d env now).transitions :=
  handle_analysis_complete_firstTrans o wid d env now _ _ w h hrem rfl rfl

/-- C1 witness: the amended theorem applied to a concrete Analyzing workflow
and a concrete "no action" classification payload. -/
theorem C1_witness :
    (mkOrch [("w1", wfAnalyzing)] []).transitions ++
      [("w1", wfAnalyzing.status, Status.proposing)] <+:
    (handle_analysis_complete (mkOrch [("w1", wfAnalyzing)] []) "w1"
      [("classification", JVal.str "no action")] envDown 20).transitions :=
  C1_analysis_always_proposes (mkOrch [("w1", wfAnalyzing)] []) "w1"
    [("classification", JVal.str "no action")] envDown 20 wfAnalyzing rfl rfl

/-! Claim C2. -/

/-- C2 counterexample: the rca collaborator has no configured A2A client
(`a2a_clients` empty), yet a workflow driven through the analysis trigger
does not end in Failed — the cascade substitutes mock payloads at every
stage and the workflow completes with no error message and no
`workflow_failed` audit event. -/
theorem C2_counterexample :
    (((trigger_rca_analysis (mkOrch [("w1", wfStarted)] []) "w1" envDown 5).getWf "w1").map
        (fun w => w.status) = some Status.completed) ∧
    (((trigger_rca_analysis (mkOrch [("w1", wfStarted)] []) "w1" envDown 5).getWf "w1").map
        (fun w => w.error_message) = some none) ∧
    (((trigger_rca_analysis (mkOrch [("w1", wfStarted)] []) "w1" envDown 5).events.filter
        (fun e => e.event_type == "workflow_failed")).length = 0) := by
  refine ⟨rfl, rfl, rfl⟩

/-- C2 (amended): when the target collaborator has no configured client,
`_a2a_call` raises a hard error (and logs no `a2a_call_failed` event), but
the analysis-stage call site catches every exception and substitutes the
stage's mock default, so the workflow proceeds Analyzing to Proposing
instead of transitioning to Failed; exactly one
`rca_a2a_failed_mock_fallback` audit event is emitted, carrying the
workflow id and the no-client error text.  The only no-collaborator
condition that does fail the workflow is an empty discovered-agents list. -/
theorem C2_no_client_uses_fallback (o : Orch) (wid : String) (env : CallEnv) (now : Nat)
    (w : WorkflowState) (h : o.getWf wid = some w)
    (hclient : o.a2a_clients.contains "rca" = false)
    (hrca : o.rca_agents.isEmpty = false)
    (hrem : o.remediation_agents.isEmpty = false) :
    (o.transitions ++
      [(wid, w.status, Status.analyzing), (wid, Status.analyzing, Status.proposing)] <+:
      (trigger_rca_analysis o wid env now).transitions) ∧
    rcaFallbackEvents (trigger_rca_analysis o wid env now) =
      rcaFallbackEvents o ++
        [⟨"rca_a2a_failed_mock_fallback",
          [("workflow_id", .str wid),
           ("error", .str "No A2A client available for service rca")]⟩] := by
  refine ⟨trigger_rca_analysis_twoTrans o wid env now w h hrca hrem, ?_⟩
  unfold trigger_rca_analysis
  simp only [h]
  cases ho : env.rca_outcome <;>
    · simp only [hrca, Bool.false_eq_true, if_false, a2a_call, hclient, ho,
        a2a_clients_setWf, a2a_clients_logEvent, a2a_clients_addTrans]
      simp [handle_analysis_complete_rcaFb, rcaFallbackEvents_logEvent_self,
        rcaFallbackEvents_logEvent]

/-- C2 witness: the amended theorem applied to a concrete Started workflow in
an orchestrator with no A2A clients at all. -/
theorem C2_witness :
    ((mkOrch [("w1", wfStarted)] []).transitions ++
      [("w1", wfStarted.status, Status.analyzing),
       ("w1", Status.analyzing, Status.proposing)] <+:
      (trigger_rca_analysis (mkOrch [("w1", wfStarted)] []) "w1" envDown 5).transitions) ∧
    rcaFallbackEvents (trigger_rca_analysis (mkOrch [("w1", wfStarted)] []) "w1" envDown 5) =
      rcaFallbackEvents (mkOrch [("w1", wfStarted)] []) ++
        [⟨"rca_a2a_failed_mock_fallback",
          [("workflow_id", .str "w1"),
           ("error", .str "No A2A client available for service rca")]⟩] :=
  C2_no_client_uses_fallback (mkOrch [("w1", wfStarted)] []) "w1" envDown 5 wfStarted
    rfl rfl rfl rfl

/-! Claim C5. -/

/-- C5 counterexample: the analysis call times out (CallUnavailable) with a
configured analysis-stage fallback and the workflow does proceed to
completion, yet the audit log contains zero events of kind
`fallback_applied` — the emitted kind is `rca_a2a_failed_mock_fallback`
instead. -/
theorem C5_counterexample :
    (((trigger_rca_analysis (mkOrch [("w1", wfStarted)] ["rca"]) "w1" envDown 5).getWf
        "w1").map (fun w => w.status) = some Status.completed) ∧
    (((trigger_rca_analysis (mkOrch [("w1", wfStarted)] ["rca"]) "w1" envDown 5).events.filter
        (fun e => e.event_type == "fallback_applied")).length = 0) ∧
    (((trigger_rca_analysis (mkOrch [("w1", wfStarted)] ["rca"]) "w1" envDown 5).events.filter
        (fun e => e.event_type == "rca_a2a_failed_mock_fallback")).length = 1) := by
  refine ⟨rfl, rfl, rfl⟩

/-- C5 (amended): whenever the analysis-stage coordinator call fails at the
transport layer (timeout or protocol error) with its client configured, the
workflow still reaches a non-Failed next stage (Analyzing to Proposing), and
exactly one audit event of kind `rca_a2a_failed_mock_fallback` — not
`fallback_applied`, which the code never emits — is appended, carrying the
matching workflow id and the error text; the remediation-stage analogues
additionally carry a stage field while this one does not. -/
theorem C5_unavailable_fallback_event (o : Orch) (wid : String) (env : CallEnv)
    (now : Nat) (w : WorkflowState) (m : String) (h : o.getWf wid = some w)
    (hclient : o.a2a_clients.contains "rca" = true)
    (ho : env.rca_outcome = CallOutcome.err m)
    (hrca : o.rca_agents.isEmpty = false)
    (hrem : o.remediation_agents.isEmpty = false) :
    (o.transitions ++
      [(wid, w.status, Status.analyzing), (wid, Status.analyzing, Status.proposing)] <+:
      (trigger_rca_analysis o wid env now).transitions) ∧
    rcaFallbackEvents (trigger_rca_analysis o wid env now) =
      rcaFallbackEvents o ++
        [⟨"rca_a2a_failed_mock_fallback",
          [("workflow_id", .str wid),
           ("error", .str ("A2A call failed for rca.analyze_failure: " ++ m))]⟩] := by
  refine ⟨trigger_rca_analysis_twoTrans o wid env now w h hrca hrem, ?_⟩
  unfold trigger_rca_analysis
  simp only [h]
  simp only [hrca, Bool.false_eq_true, if_false, a2a_call, hclient, ho,
    a2a_clients_setWf, a2a_clients_logEvent, a2a_clients_addTrans]
  simp [handle_analysis_complete_rcaFb, rcaFallbackEvents_logEvent_self,
    rcaFallbackEvents_logEvent, rca_skill]

/-- C5 witness: the amended theorem applied to a concrete Started workflow
whose analysis call times out. -/
theorem C5_witness :
    ((mkOrch [("w1", wfStarted)] ["rca"]).transitions ++
      [("w1", wfStarted.status, Status.analyzing),
       ("w1", Status.analyzing, Status.proposing)] <+:
      (trigger_rca_analysis (mkOrch [("w1", wfStarted)] ["rca"]) "w1" envDown 5).transitions) ∧
    rcaFallbackEvents (trigger_rca_analysis (mkOrch [("w1", wfStarted)] ["rca"]) "w1" envDown 5) =
      rcaFallbackEvents (mkOrch [("w1", wfStarted)] ["rca"]) ++
        [⟨"rca_a2a_failed_mock_fallback",
          [("workflow_id", .str "w1"),
           ("error", .str ("A2A call failed for rca.analyze_failure: " ++ "Request timeout"))]⟩] :=
  C5_unavailable_fallback_event (mkOrch [("w1", wfStarted)] ["rca"]) "w1" envDown 5 wfStarted
    "Request timeout" rfl rfl rfl rfl rfl

/-! The effect of `_fail_workflow` on the store, and how it distributes over
the supervisor sweeps (which fold it over a snapshot). -/

/-- The record mutation `_fail_workflow` applies to a stored workflow. -/
def failify (w : WorkflowState) (m : String) (now : Nat) : WorkflowState :=
  { w with status := .failed, updated_at := now, error_message := some m }

theorem failify_failify (w : WorkflowState) (m : String) (now : Nat) :
    failify (failify w m now) m now = failify w m now := rfl

theorem fail_workflow_getWf_self (o : Orch) (wid m : String) (now : Nat) (w : WorkflowState)
    (h : o.getWf wid = some w) :
    (fail_workflow o wid m now).getWf wid = some (failify w m now) := by
  unfold fail_workflow
  simp only [h]
  simp [failify]

theorem fail_workflow_getWf_other (o : Orch) (wid v m : String) (now : Nat) (hv : v ≠ wid) :
    (fail_workflow o wid m now).getWf v = o.getWf v := by
  unfold fail_workflow
  cases h : o.getWf wid with
  | none => rfl
  | some w => simp [getWf_setWf_ne _ _ _ _ hv]

theorem foldl_fail_stable (ks : List String) (o : Orch) (wid m : String) (now : Nat)
    (w : WorkflowState) (h : o.getWf wid = some (failify w m now)) :
    (ks.foldl (fun acc k => fail_workflow acc k m now) o).getWf wid =
      some (failify w m now) := by
  induction ks generalizing o with
  | nil => simpa using h
  | cons k ks ih =>
      simp only [List.foldl_cons]
      apply ih
      by_cases hk : k = wid
      · subst hk
        rw [fail_workflow_getWf_self _ _ _ _ _ h, failify_failify]
      · rw [fail_workflow_getWf_other o k wid m now (Ne.symm hk)]
        exact h

theorem foldl_fail_mem (ks : List String) (o : Orch) (wid m : String) (now : Nat)
    (w : WorkflowState) (h : o.getWf wid = some w) (hmem : wid ∈ ks) :
    (ks.foldl (fun acc k => fail_workflow acc k m now) o).getWf wid =
      some (failify w m now) := by
  induction ks generalizing o with
  | nil => cases hmem
  | cons k ks ih =>
      simp only [List.foldl_cons]
      by_cases hk : k = wid
      · subst hk
        exact foldl_fail_stable ks _ k m now w (fail_workflow_getWf_self _ _ _ _ _ h)
      · have hmem2 : wid ∈ ks := by
          rcases List.mem_cons.mp hmem with h1 | h2
          · exact absurd h1.symm hk
          · exact h2
        refine ih _ ?_ hmem2
        rw [fail_workflow_getWf_other o k wid m now (Ne.symm hk)]
        exact h

theorem foldl_fail_notmem (ks : List String) (o : Orch) (wid m : String) (now : Nat)
    (hmem : wid ∉ ks) :
    (ks.foldl (fun acc k => fail_workflow acc k m now) o).getWf wid = o.getWf wid := by
  induction ks generalizing o with
  | nil => rfl
  | cons k ks ih =>
      simp only [List.foldl_cons]
      have hk : wid ≠ k := by
        intro hh
        exact hmem (hh ▸ List.mem_cons_self _ _)
      rw [ih _ (fun hh => hmem (List.mem_cons_of_mem _ hh)),
        fail_workflow_getWf_other o k wid m now hk]

/-! Claim C4. -/

/-- A workflow record already in the terminal Completed stage. -/
def wfCompleted : WorkflowState :=
  { workflow_id := "w1", incident_id := "inc-1", failure_payload := sampleFailure,
    status := .completed, created_at := 0, updated_at := 20,
    execution_result := some [("success", .bool true)] }

/-- C4 counterexample: the shutdown pass is run over a store holding a
workflow already in the terminal Completed stage.  The claim requires the
terminal record to be left unmodified and the failure reason to be the exact
string "system shutdown"; the code re-fails the terminal record and writes
"System shutdown" (capital S). -/
theorem C4_counterexample :
    (((cleanup (mkOrch [("w1", wfCompleted)] []) 30).getWf "w1").map
        (fun w => (w.status, w.error_message)) =
      some (Status.failed, some "System shutdown")) ∧
    ("System shutdown" ≠ "system shutdown") := by
  exact ⟨rfl, by decide⟩

/-- C4 (amended): the shutdown cleanup pass transitions every workflow still
present in the store — the still-active ones and also the terminal ones not
yet evicted — to Failed with reason "System shutdown" (capital S), setting
the failure time as the update time and keeping every other field. -/
theorem C4_shutdown_fails_every_stored_workflow (o : Orch) (now : Nat) (wid : String)
    (w : WorkflowState) (h : o.getWf wid = some w) :
    (cleanup o now).getWf wid =
      some { w with
              status := .failed, updated_at := now,
              error_message := some "System shutdown" } := by
  unfold cleanup
  simp only [getWf_logEvent]
  exact foldl_fail_mem _ o wid "System shutdown" now w h
    (List.mem_map_of_mem Prod.fst (lookupWf_mem _ _ _ h))

/-- C4 witness: the amended theorem applied to the concrete Completed
workflow. -/
theorem C4_witness :
    (cleanup (mkOrch [("w1", wfCompleted)] []) 30).getWf "w1" =
      some { wfCompleted with
              status := .failed, updated_at := 30,
              error_message := some "System shutdown" } :=
  C4_shutdown_fails_every_stored_workflow (mkOrch [("w1", wfCompleted)] []) 30 "w1"
    wfCompleted rfl

/-! The supervisor tick folds the timeout check over a snapshot of the
store; these lemmas describe the fold per workflow id. -/

theorem nodup_lookup_unique (l : List (String × WorkflowState))
    (hnd : (l.map Prod.fst).Nodup) (k : String) (v : WorkflowState)
    (hm : (k, v) ∈ l) : lookupWf l k = some v := by
  induction l with
  | nil => cases hm
  | cons p rest ih =>
      obtain ⟨a, b⟩ := p
      simp only [List.map_cons, List.nodup_cons] at hnd
      rcases List.mem_cons.mp hm with h1 | h2
      · obtain ⟨rfl, rfl⟩ := Prod.mk.inj h1.symm
        simp [lookupWf]
      · by_cases hak : a = k
        · subst hak
          exact absurd (List.mem_map_of_mem Prod.fst h2) hnd.1
        · simp only [lookupWf, if_neg hak]
          exact ih hnd.2 h2

theorem tickfold_stable (ps : List (String × WorkflowState)) (o : Orch) (wid : String)
    (now : Nat) (w : WorkflowState)
    (h : o.getWf wid = some (failify w "Workflow timeout" now)) :
    (ps.foldl (fun acc p =>
        if stale now p.2 then fail_workflow acc p.1 "Workflow timeout" now else acc)
      o).getWf wid = some (failify w "Workflow timeout" now) := by
  induction ps generalizing o with
  | nil => simpa using h
  | cons p ps ih =>
      simp only [List.foldl_cons]
      cases hs : stale now p.2
      · simp only [Bool.false_eq_true, if_false]
        exact ih _ h
      · simp only [if_true]
        apply ih
        by_cases hk : p.1 = wid
        · rw [hk, fail_workflow_getWf_self _ _ _ _ _ h, failify_failify]
        · rw [fail_workflow_getWf_other _ _ _ _ _ (Ne.symm hk)]
          exact h

theorem tickfold_untouched (ps : List (String × WorkflowState)) (o : Orch) (wid : String)
    (now : Nat)
    (hall : ∀ p ∈ ps, p.1 = wid → stale now p.2 = false) :
    (ps.foldl (fun acc p =>
        if stale now p.2 then fail_workflow acc p.1 "Workflow timeout" now else acc)
      o).getWf wid = o.getWf wid := by
  induction ps generalizing o with
  | nil => rfl
  | cons p ps ih =>
      simp only [List.foldl_cons]
      cases hs : stale now p.2
      · simp only [Bool.false_eq_true, if_false]
        exact ih _ (fun q hq hq1 => hall q (List.mem_cons_of_mem _ hq) hq1)
      · have hk : p.1 ≠ wid := by
          intro hh
          simpa [hs] using hall p (List.mem_cons_self _ _) hh
        simp only [if_true]
        rw [ih _ (fun q hq hq1 => hall q (List.mem_cons_of_mem _ hq) hq1),
          fail_workflow_getWf_other _ _ _ _ _ (Ne.symm hk)]

theorem tickfold_fails (ps : List (String × WorkflowState)) (o : Orch) (wid : String)
    (now : Nat) (w : WorkflowState) (h : o.getWf wid = some w)
    (hex : ∃ p ∈ ps, p.1 = wid ∧ stale now p.2 = true) :
    (ps.foldl (fun acc p =>
        if stale now p.2 then fail_workflow acc p.1 "Workflow timeout" now else acc)
      o).getWf wid = some (failify w "Workflow timeout" now) := by
  induction ps generalizing o with
  | nil =>
      obtain ⟨q, hq, _, _⟩ := hex
      cases hq
  | cons p ps ih =>
      obtain ⟨q, hq, hq1, hq2⟩ := hex
      simp only [List.foldl_cons]
      cases hs : stale now p.2
      · have hqps : q ∈ ps := by
          rcases List.mem_cons.mp hq with h1 | h2
          · rw [h1] at hq2
            rw [hq2] at hs
            cases hs
          · exact h2
        simp only [Bool.false_eq_true, if_false]
        exact ih _ h ⟨q, hqps, hq1, hq2⟩
      · simp only [if_true]
        by_cases hk : p.1 = wid
        · apply tickfold_stable
          rw [hk, fail_workflow_getWf_self _ _ _ _ _ h]
        · have hqps : q ∈ ps := by
            rcases List.mem_cons.mp hq with h1 | h2
            · rw [h1] at hq1
              exact absurd hq1 hk
            · exact h2
          refine ih _ ?_ ⟨q, hqps, hq1, hq2⟩
          rw [fail_workflow_getWf_other _ _ _ _ _ (Ne.symm hk)]
          exact h

/-! Claim C6. -/

/-- C6 counterexample: a workflow stale past the 30-minute timeout is swept
by the supervisor tick, but the failure reason written is the string
"Workflow timeout" (capital W), not the "workflow timeout" the claim
specifies. -/
theorem C6_counterexample :
    (((monitor_workflows_tick (mkOrch [("w1", wfAnalyzing)] []) 2000).getWf "w1").map
      (fun w => (w.status, w.error_message)) =
        some (Status.failed, some "Workflow timeout")) ∧
    ("Workflow timeout" ≠ "workflow timeout") :=
  ⟨rfl, by decide⟩

/-- C6 (amended): at each supervisor tick, every stored workflow whose
updated_at is older than the 30-minute timeout is transitioned to Failed
with reason "Workflow timeout" (capital W), and every workflow more recent
than the timeout is left completely unchanged by the tick. -/
theorem C6_tick_sweep (o : Orch) (now : Nat) (wid : String) (w : WorkflowState)
    (h : o.getWf wid = some w)
    (hnd : (o.active_workflows.map Prod.fst).Nodup) :
    (monitor_workflows_tick o now).getWf wid =
      if stale now w then
        some { w with
                status := .failed, updated_at := now,
                error_message := some "Workflow timeout" }
      else some w := by
  unfold monitor_workflows_tick
  cases hs : stale now w
  · simp only [Bool.false_eq_true, if_false]
    rw [tickfold_untouched _ o wid now ?_]
    · exact h
    · intro p hp hp1
      have hlk : lookupWf o.active_workflows p.1 = some p.2 :=
        nodup_lookup_unique o.active_workflows hnd p.1 p.2 hp
      rw [hp1] at hlk
      have : p.2 = w := by
        have := hlk.symm.trans h
        exact Option.some.inj this
      rw [this]
      exact hs
  · simp only [if_true]
    exact tickfold_fails _ o wid now w h ⟨(wid, w), lookupWf_mem _ _ _ h, rfl, hs⟩

/-- C6 witness: the amended theorem applied to a concrete stale workflow. -/
theorem C6_witness :
    (monitor_workflows_tick (mkOrch [("w1", wfAnalyzing)] []) 2000).getWf "w1" =
      if stale 2000 wfAnalyzing then
        some { wfAnalyzing with
                status := .failed, updated_at := 2000,
                error_message := some "Workflow timeout" }
      else some wfAnalyzing :=
  C6_tick_sweep (mkOrch [("w1", wfAnalyzing)] []) 2000 "w1" wfAnalyzing rfl (by decide)

/-! Claim C9. -/

/-- C9: the health-check operation is not read-only.  With the webhook
server object present (which is always the case while GET /health is being
served), for every stored workflow whose updated_at is older than the
30-minute workflow timeout at the moment of the query, the health check
itself transitions that workflow to Failed with message "Workflow timeout";
every other workflow record is left unchanged, and the check reports
healthy.  The hypotheses that store keys are duplicate-free and that each
record carries its own key as workflow_id hold for every store the code
builds, since `_start_incident_workflow` keys each record by its fresh
workflow_id. -/
theorem C9_health_check_not_readonly (o : Orch) (now : Nat)
    (hs : o.server = true)
    (hnd : (o.active_workflows.map Prod.fst).Nodup)
    (hcoh : ∀ p ∈ o.active_workflows, p.2.workflow_id = p.1)
    (wid : String) (w : WorkflowState) (h : o.getWf wid = some w) :
    ((health_check o now).2 = true) ∧
    ((health_check o now).1.getWf wid =
      if stale now w then
        some { w with
                status := .failed, updated_at := now,
                error_message := some "Workflow timeout" }
      else some w) := by
  unfold health_check
  simp only [hs, if_true]
  refine ⟨by trivial, ?_⟩
  cases hst : stale now w
  · simp only [Bool.false_eq_true, if_false]
    rw [foldl_fail_notmem _ o wid "Workflow timeout" now ?_]
    · exact h
    · intro hmem
      obtain ⟨p, hp, hpid⟩ := List.mem_map.mp hmem
      have hpl := List.mem_filter.mp hp
      have hk : p.1 = wid := by
        rw [← hpid]
        exact (hcoh p hpl.1).symm
      have hlk : lookupWf o.active_workflows p.1 = some p.2 :=
        nodup_lookup_unique o.active_workflows hnd p.1 p.2 hpl.1
      rw [hk] at hlk
      have hpw : p.2 = w := Option.some.inj (hlk.symm.trans h)
      rw [hpw] at hpl
      rw [hpl.2] at hst
      cases hst
  · simp only [if_true]
    apply foldl_fail_mem _ o wid "Workflow timeout" now w h
    have hpair : (wid, w) ∈ o.active_workflows := lookupWf_mem _ _ _ h
    have hfilt : (wid, w) ∈ o.active_workflows.filter (fun p => stale now p.2) :=
      List.mem_filter.mpr ⟨hpair, hst⟩
    have hm := List.mem_map_of_mem (fun p => p.2.workflow_id) hfilt
    have h2 : w.workflow_id = wid := hcoh (wid, w) hpair
    rw [← h2]
    simpa using hm

/-- C9 witness: the health check applied to a store holding one stale
workflow, which it transitions to Failed. -/
theorem C9_witness :
    ((health_check (mkOrch [("w1", wfAnalyzing)] []) 2000).2 = true) ∧
    ((health_check (mkOrch [("w1", wfAnalyzing)] []) 2000).1.getWf "w1" =
      if stale 2000 wfAnalyzing then
        some { wfAnalyzing with
                status := .failed, updated_at := 2000,
                error_message := some "Workflow timeout" }
      else some wfAnalyzing) :=
  C9_health_check_not_readonly (mkOrch [("w1", wfAnalyzing)] []) 2000 rfl (by decide)
    (by decide) "w1" wfAnalyzing rfl

/-! Claim C10. -/

/-- C10: for a workflow_id absent from the record store, each stage-update
operation (analysis complete, remediation proposed, approval received,
execution complete, fail) returns without error and leaves the whole
orchestrator state unchanged, and `update_workflow_status` nevertheless
reports status "updated" to the caller. -/
theorem C10_unknown_workflow_reports_updated (o : Orch) (task_id wid status : String)
    (rd : Payload) (env : CallEnv) (now : Nat)
    (hwid : wid ≠ "") (hnone : o.getWf wid = none)
    (hst : status ∈ ["analysis_complete", "remediation_proposed", "approval_received",
      "execution_complete", "failed"]) :
    (handle_update_workflow_status o task_id wid status rd env now).1 = o ∧
    (handle_update_workflow_status o task_id wid status rd env now).2 =
      Except.ok
        [("task_id", .str task_id), ("workflow_id", .str wid),
         ("status", .str "updated"),
         ("message", .str ("Workflow " ++ wid ++ " status updated to " ++ status))] := by
  fin_cases hst <;>
    · constructor <;>
        simp [handle_update_workflow_status, handle_analysis_complete,
          handle_remediation_proposed, handle_approval_received,
          handle_execution_complete, fail_workflow, hnone, hwid]

/-- C10 witness: an execution-complete update for an id that is not in the
store leaves the state unchanged and still answers "updated". -/
theorem C10_witness :
    (handle_update_workflow_status (mkOrch [] []) "t1" "missing" "execution_complete"
      [] envDown 7).1 = mkOrch [] [] ∧
    (handle_update_workflow_status (mkOrch [] []) "t1" "missing" "execution_complete"
      [] envDown 7).2 =
      Except.ok
        [("task_id", .str "t1"), ("workflow_id", .str "missing"),
         ("status", .str "updated"),
         ("message", .str ("Workflow " ++ "missing" ++ " status updated to " ++
           "execution_complete"))] :=
  C10_unknown_workflow_reports_updated (mkOrch [] []) "t1" "missing" "execution_complete"
    [] envDown 7 (by decide) rfl (by simp)

/-! Timestamp discipline: every mutation keeps created_at fixed and writes
updated_at := now, so created_at ≤ updated_at is an invariant as long as the
clock never runs backwards past a creation time. -/

/-- Every stored record satisfies created_at ≤ updated_at. -/
def TimeOK (o : Orch) : Prop :=
  ∀ p ∈ o.active_workflows, p.2.created_at ≤ p.2.updated_at

/-- Every stored record was created no later than the instant now. -/
def ClockOK (o : Orch) (now : Nat) : Prop :=
  ∀ p ∈ o.active_workflows, p.2.created_at ≤ now

/-- One handler step at instant now preserves the timestamp discipline: it
keeps the invariant and the clock bound, never moves the created_at of an
existing record, and never drops a record. -/
def Pres (now : Nat) (o o2 : Orch) : Prop :=
  (TimeOK o → ClockOK o now → TimeOK o2 ∧ ClockOK o2 now) ∧
  (∀ wid w, o.getWf wid = some w →
    ∃ w2, o2.getWf wid = some w2 ∧ w2.created_at = w.created_at)

theorem pres_refl (now : Nat) (o : Orch) : Pres now o o :=
  ⟨fun ht hc => ⟨ht, hc⟩, fun _ w h => ⟨w, h, rfl⟩⟩

theorem pres_trans (now : Nat) (o o2 o3 : Orch)
    (h1 : Pres now o o2) (h2 : Pres now o2 o3) : Pres now o o3 := by
  constructor
  · intro ht hc
    obtain ⟨ht2, hc2⟩ := h1.1 ht hc
    exact h2.1 ht2 hc2
  · intro wid w h
    obtain ⟨w2, hw2, hcw2⟩ := h1.2 wid w h
    obtain ⟨w3, hw3, hcw3⟩ := h2.2 wid w2 hw2
    exact ⟨w3, hw3, hcw3.trans hcw2⟩

theorem pres_of_store_eq (now : Nat) (o o2 : Orch)
    (h : o2.active_workflows = o.active_workflows) : Pres now o o2 := by
  constructor
  · intro ht hc
    constructor
    · intro p hp
      exact ht p (h ▸ hp)
    · intro p hp
      exact hc p (h ▸ hp)
  · intro wid w hw
    refine ⟨w, ?_, rfl⟩
    unfold Orch.getWf at hw ⊢
    rw [h]
    exact hw

theorem pres_setWf_update (now : Nat) (o : Orch) (wid : String) (w w2 : WorkflowState)
    (h : o.getWf wid = some w)
    (hc : w2.created_at = w.created_at) (hu : w2.updated_at = now) :
    Pres now o (o.setWf wid w2) := by
  have hwmem : (wid, w) ∈ o.active_workflows := lookupWf_mem _ _ _ h
  constructor
  · intro ht hcl
    constructor
    · intro p hp
      rcases mem_updWf _ _ _ _ hp with h1 | h2
      · rw [h1]
        simp only [hc, hu]
        exact hcl (wid, w) hwmem
      · exact ht p h2
    · intro p hp
      rcases mem_updWf _ _ _ _ hp with h1 | h2
      · rw [h1]
        simp only [hc]
        exact hcl (wid, w) hwmem
      · exact hcl p h2
  · intro v u hv
    by_cases hvw : v = wid
    · subst hvw
      refine ⟨w2, getWf_setWf_self _ _ _, ?_⟩
      rw [hc, Option.some.inj (h.symm.trans hv)]
    · exact ⟨u, (getWf_setWf_ne _ _ _ _ hvw).trans hv, rfl⟩

theorem pres_insert_fresh (now : Nat) (o : Orch) (wid : String) (w2 : WorkflowState)
    (hn : o.getWf wid = none) (hc : w2.created_at = now) (hu : w2.updated_at = now) :
    Pres now o (o.setWf wid w2) := by
  constructor
  · intro ht hcl
    constructor
    · intro p hp
      rcases mem_updWf _ _ _ _ hp with h1 | h2
      · rw [h1]
        simp [hc, hu]
      · exact ht p h2
    · intro p hp
      rcases mem_updWf _ _ _ _ hp with h1 | h2
      · rw [h1]
        simp [hc]
      · exact hcl p h2
  · intro v u hv
    by_cases hvw : v = wid
    · subst hvw
      rw [hv] at hn
      cases hn
    · exact ⟨u, (getWf_setWf_ne _ _ _ _ hvw).trans hv, rfl⟩

theorem pres_a2a (now : Nat) (o : Orch) (s sk : String) (p : Payload) (t : Nat)
    (oc : CallOutcome) (cid : String) :
    Pres now o (a2a_call o s sk p t oc cid).1 := by
  unfold a2a_call
  cases oc <;> by_cases h : s ∈ o.a2a_clients <;> simp [h] <;>
    exact pres_of_store_eq _ _ _ rfl

theorem pres_fail_workflow (now : Nat) (o : Orch) (wid m : String) :
    Pres now o (fail_workflow o wid m now) := by
  unfold fail_workflow
  cases h : o.getWf wid with
  | none => exact pres_refl _ _
  | some w =>
      refine pres_trans _ _ _ _ (pres_setWf_update _ o wid w _ h ?_ ?_)
        (pres_of_store_eq _ _ _ rfl) <;> rfl

theorem pres_complete_workflow (now : Nat) (o : Orch) (wid : String) (r : Payload) :
    Pres now o (complete_workflow o wid r now) := by
  unfold complete_workflow
  cases h : o.getWf wid with
  | none => exact pres_refl _ _
  | some w =>
      refine pres_trans _ _ _ _ (pres_setWf_update _ o wid w _ h ?_ ?_)
        (pres_of_store_eq _ _ _ rfl) <;> rfl

theorem pres_handle_execution_complete (now : Nat) (o : Orch) (wid : String) (r : Payload) :
    Pres now o (handle_execution_complete o wid r now) := by
  unfold handle_execution_complete
  cases h : o.getWf wid with
  | none => exact pres_refl _ _
  | some w =>
      refine pres_trans _ _ _ _ ?_ (pres_complete_workflow _ _ _ _)
      refine pres_trans _ _ _ _ (pres_setWf_update _ o wid w _ h ?_ ?_)
        (pres_of_store_eq _ _ _ rfl) <;> rfl

theorem pres_trigger_remediation_execution (now : Nat) (o : Orch) (wid : String)
    (env : CallEnv) :
    Pres now o (trigger_remediation_execution o wid env now) := by
  unfold trigger_remediation_execution
  cases h : o.getWf wid with
  | none => exact pres_refl _ _
  | some w =>
      cases he : o.remediation_agents.isEmpty
      · cases hc : o.a2a_clients.contains "remediation" <;>
          cases ho : env.execute_outcome <;>
          · simp only [he, Bool.false_eq_true, if_false, a2a_call, hc, ho,
              a2a_clients_setWf, a2a_clients_logEvent, a2a_clients_addTrans]
            refine pres_trans _ _ _ _ ?_ (pres_handle_execution_complete _ _ _ _)
            refine pres_trans _ _ _ _ (pres_setWf_update _ o wid w _ h ?_ ?_)
              (pres_of_store_eq _ _ _ rfl) <;> rfl
      · simp only [he, if_true]
        exact pres_fail_workflow _ _ _ _

theorem pres_handle_approval_received (now : Nat) (o : Orch) (wid : String) (r : Payload)
    (env : CallEnv) :
    Pres now o (handle_approval_received o wid r env now) := by
  unfold handle_approval_received
  cases h : o.getWf wid with
  | none => exact pres_refl _ _
  | some w =>
      cases hd : decisionIsApprove r
      · simp only [hd, Bool.false_eq_true, if_false]
        refine pres_trans _ _ _ _ ?_ (pres_complete_workflow _ _ _ _)
        refine pres_trans _ _ _ _ (pres_setWf_update _ o wid w _ h ?_ ?_)
          (pres_of_store_eq _ _ _ rfl) <;> rfl
      · simp only [hd, if_true]
        refine pres_trans _ _ _ _ ?_ (pres_trigger_remediation_execution _ _ _ _)
        refine pres_trans _ _ _ _ (pres_setWf_update _ o wid w _ h ?_ ?_)
          (pres_of_store_eq _ _ _ rfl) <;> rfl

theorem pres_trigger_approval_request (now : Nat) (o : Orch) (wid : String)
    (env : CallEnv) :
    Pres now o (trigger_approval_request o wid env now) := by
  unfold trigger_approval_request
  cases h : o.getWf wid with
  | none => exact pres_refl _ _
  | some w =>
      cases he : o.approval_agents.isEmpty
      · cases hc : o.a2a_clients.contains "approval" <;>
          cases ho : env.approval_outcome <;>
          · simp only [he, Bool.false_eq_true, if_false, a2a_call, hc, ho,
              a2a_clients_setWf, a2a_clients_logEvent, a2a_clients_addTrans]
            refine pres_trans _ _ _ _ ?_ (pres_handle_approval_received _ _ _ _ _)
            refine pres_trans _ _ _ _ (pres_setWf_update _ o wid w _ h ?_ ?_)
              (pres_of_store_eq _ _ _ rfl) <;> rfl
      · simp only [he, if_true]
        exact pres_fail_workflow _ _ _ _

theorem pres_handle_remediation_proposed (now : Nat) (o : Orch) (wid : String)
    (r : Payload) (env : CallEnv) :
    Pres now o (handle_remediation_proposed o wid r env now) := by
  unfold handle_remediation_proposed
  cases h : o.getWf wid with
  | none => exact pres_refl _ _
  | some w =>
      refine pres_trans _ _ _ _ ?_ (pres_trigger_approval_request _ _ _ _)
      refine pres_trans _ _ _ _ (pres_setWf_update _ o wid w _ h ?_ ?_)
        (pres_of_store_eq _ _ _ rfl) <;> rfl

theorem pres_trigger_remediation_proposal (now : Nat) (o : Orch) (wid : String)
    (env : CallEnv) :
    Pres now o (trigger_remediation_proposal o wid env now) := by
  unfold trigger_remediation_proposal
  cases h : o.getWf wid with
  | none => exact pres_refl _ _
  | some w =>
      cases he : o.remediation_agents.isEmpty
      · cases hc : o.a2a_clients.contains "remediation" <;>
          cases ho : env.propose_outcome <;>
          · simp only [he, Bool.false_eq_true, if_false, a2a_call, hc, ho,
              a2a_clients_setWf, a2a_clients_logEvent, a2a_clients_addTrans]
            refine pres_trans _ _ _ _ ?_ (pres_handle_remediation_proposed _ _ _ _ _)
            refine pres_trans _ _ _ _ (pres_setWf_update _ o wid w _ h ?_ ?_)
              (pres_of_store_eq _ _ _ rfl) <;> rfl
      · simp only [he, if_true]
        exact pres_fail_workflow _ _ _ _

theorem pres_handle_analysis_complete (now : Nat) (o : Orch) (wid : String) (r : Payload)
    (env : CallEnv) :
    Pres now o (handle_analysis_complete o wid r env now) := by
  unfold handle_analysis_complete
  cases h : o.getWf wid with
  | none => exact pres_refl _ _
  | some w =>
      refine pres_trans _ _ _ _ ?_ (pres_trigger_remediation_proposal _ _ _ _)
      refine pres_trans _ _ _ _ (pres_setWf_update _ o wid w _ h ?_ ?_)
        (pres_of_store_eq _ _ _ rfl) <;> rfl

theorem pres_trigger_rca_analysis (now : Nat) (o : Orch) (wid : String) (env : CallEnv) :
    Pres now o (trigger_rca_analysis o wid env now) := by
  unfold trigger_rca_analysis
  cases h : o.getWf wid with
  | none => exact pres_refl _ _
  | some w =>
      cases he : o.rca_agents.isEmpty
      · cases hc : o.a2a_clients.contains "rca" <;>
          cases ho : env.rca_outcome <;>
          · simp only [he, Bool.false_eq_true, if_false, a2a_call, hc, ho,
              a2a_clients_setWf, a2a_clients_logEvent, a2a_clients_addTrans]
            refine pres_trans _ _ _ _ ?_ (pres_handle_analysis_complete _ _ _ _ _)
            refine pres_trans _ _ _ _ (pres_setWf_update _ o wid w _ h ?_ ?_)
              (pres_of_store_eq _ _ _ rfl) <;> rfl
      · simp only [he, if_true]
        exact pres_fail_workflow _ _ _ _

theorem pres_start_incident_workflow (now : Nat) (o : Orch) (fp : FailurePayload)
    (wid : String) (env : CallEnv) (hn : o.getWf wid = none) :
    Pres now o (start_incident_workflow o fp wid env now).1 := by
  unfold start_incident_workflow
  refine pres_trans _ _ _ _ ?_ (pres_trigger_rca_analysis _ _ _ _)
  exact pres_trans _ _ _ _ (pres_insert_fresh _ o wid _ hn rfl rfl)
    (pres_of_store_eq _ _ _ rfl)

theorem start_incident_workflow_getWf (o : Orch) (fp : FailurePayload) (wid : String)
    (env : CallEnv) (now : Nat) :
    ∃ w2, (start_incident_workflow o fp wid env now).1.getWf wid = some w2 := by
  have hgen : ∀ o2 : Orch, ∀ w : WorkflowState, o2.getWf wid = some w →
      ∃ w2, (trigger_rca_analysis o2 wid env now).getWf wid = some w2 := by
    intro o2 w h
    obtain ⟨w2, hw2, _⟩ := (pres_trigger_rca_analysis now o2 wid env).2 wid w h
    exact ⟨w2, hw2⟩
  unfold start_incident_workflow
  exact hgen _ _ (getWf_setWf_self _ _ _)

@[simp]
theorem start_incident_workflow_snd (o : Orch) (fp : FailurePayload) (wid : String)
    (env : CallEnv) (now : Nat) :
    (start_incident_workflow o fp wid env now).2 = wid := rfl

theorem pres_handle_playwright_webhook (now : Nat) (o : Orch) (body : Payload)
    (wid : String) (env : CallEnv) (hn : o.getWf wid = none) :
    Pres now o (handle_playwright_webhook o body wid env now).1 := by
  unfold handle_playwright_webhook
  cases hv : validate_failure_payload body
  · simp only [Bool.false_eq_true, if_false]
    exact pres_refl _ _
  · simp only [if_true]
    split
    · exact pres_start_incident_workflow _ o _ wid env hn
    · exact pres_start_incident_workflow _ o _ wid env hn

theorem pres_handle_update_workflow_status (now : Nat) (o : Orch) (t wid st : String)
    (rd : Payload) (env : CallEnv) :
    Pres now o (handle_update_workflow_status o t wid st rd env now).1 := by
  unfold handle_update_workflow_status
  by_cases h0 : wid = "" ∨ st = ""
  · simp only [h0, if_true]
    exact pres_refl _ _
  · simp only [h0, if_false]
    by_cases h1 : st = "analysis_complete"
    · simp only [h1, if_true]
      exact pres_handle_analysis_complete _ _ _ _ _
    · simp only [h1, if_false]
      by_cases h2 : st = "remediation_proposed"
      · simp only [h2, if_true]
        exact pres_handle_remediation_proposed _ _ _ _ _
      · simp only [h2, if_false]
        by_cases h3 : st = "approval_received"
        · simp only [h3, if_true]
          exact pres_handle_approval_received _ _ _ _ _
        · simp only [h3, if_false]
          by_cases h4 : st = "execution_complete"
          · simp only [h4, if_true]
            exact pres_handle_execution_complete _ _ _ _
          · simp only [h4, if_false]
            by_cases h5 : st = "failed"
            · simp only [h5, if_true]
              exact pres_fail_workflow _ _ _ _
            · simp only [h5, if_false]
              exact pres_refl _ _

theorem pres_handle_cancel_workflow (now : Nat) (o : Orch) (t wid reason : String) :
    Pres now o (handle_cancel_workflow o t wid reason now).1 := by
  unfold handle_cancel_workflow
  by_cases h0 : wid = ""
  · simp only [h0, if_true]
    exact pres_refl _ _
  · simp only [h0, if_false]
    exact pres_fail_workflow _ _ _ _

theorem pres_foldl_fail (ks : List String) (o : Orch) (m : String) (now : Nat) :
    Pres now o (ks.foldl (fun acc k => fail_workflow acc k m now) o) := by
  induction ks generalizing o with
  | nil => exact pres_refl _ _
  | cons k ks ih =>
      simp only [List.foldl_cons]
      exact pres_trans _ _ _ _ (pres_fail_workflow _ _ _ _) (ih _)

theorem pres_foldl_tick (ps : List (String × WorkflowState)) (o : Orch) (now : Nat) :
    Pres now o (ps.foldl (fun acc p =>
      if stale now p.2 then fail_workflow acc p.1 "Workflow timeout" now else acc) o) := by
  induction ps generalizing o with
  | nil => exact pres_refl _ _
  | cons p ps ih =>
      simp only [List.foldl_cons]
      cases hs : stale now p.2
      · simp only [Bool.false_eq_true, if_false]
        exact ih _
      · simp only [if_true]
        exact pres_trans _ _ _ _ (pres_fail_workflow _ _ _ _) (ih _)

theorem pres_health_check (now : Nat) (o : Orch) :
    Pres now o (health_check o now).1 := by
  unfold health_check
  cases hs : o.server
  · simp only [Bool.false_eq_true, if_false]
    exact pres_refl _ _
  · simp only [if_true]
    exact pres_foldl_fail _ _ _ _

theorem pres_monitor_tick (now : Nat) (o : Orch) :
    Pres now o (monitor_workflows_tick o now) := by
  unfold monitor_workflows_tick
  exact pres_foldl_tick _ _ _

theorem pres_cleanup (now : Nat) (o : Orch) : Pres now o (cleanup o now) := by
  unfold cleanup
  exact pres_trans _ _ _ _ (pres_foldl_fail _ _ _ _) (pres_of_store_eq _ _ _ rfl)

/-- The freshness side condition of each operation: the webhook draws a
fresh uuid, so its workflow id is not yet in the store. -/
def FreshOp (o : Orch) : Op → Prop
  | .webhook _ wid _ => o.getWf wid = none
  | _ => True

theorem pres_applyOp (now : Nat) (o : Orch) (op : Op) (hf : FreshOp o op) :
    Pres now o (applyOp o op now) := by
  cases op with
  | webhook body wid env => exact pres_handle_playwright_webhook now o body wid env hf
  | update_status t wid st rd env => exact pres_handle_update_workflow_status now o t wid st rd env
  | cancel_workflow t wid reason => exact pres_handle_cancel_workflow now o t wid reason
  | health => exact pres_health_check now o
  | tick => exact pres_monitor_tick now o
  | shutdown => exact pres_cleanup now o

/-! Claim C8. -/

/-- C8: after every mutating operation run at instant now — workflow
creation via the webhook, every stage transition driven by a status update,
failure, cancellation, completion, the supervisor tick, the health check and
the shutdown pass — the invariant created_at ≤ updated_at holds for every
stored workflow, and the created_at of every record that existed before the
operation is unchanged by it; the hypotheses say that the invariant and the
clock bound held beforehand and that the webhook uuid is fresh. -/
theorem C8_timestamp_invariant (o : Orch) (op : Op) (now : Nat)
    (hf : FreshOp o op) (ht : TimeOK o) (hc : ClockOK o now) :
    TimeOK (applyOp o op now) ∧
    (∀ wid w, o.getWf wid = some w →
      ∃ w2, (applyOp o op now).getWf wid = some w2 ∧ w2.created_at = w.created_at) := by
  have hp := pres_applyOp now o op hf
  exact ⟨(hp.1 ht hc).1, hp.2⟩

/-- C8 witness: the invariant is preserved by a concrete supervisor tick
over a store holding one workflow, and that workflow keeps its creation
time. -/
theorem C8_witness :
    TimeOK (applyOp (mkOrch [("w1", wfAnalyzing)] []) Op.tick 2000) ∧
    (∃ w2, (applyOp (mkOrch [("w1", wfAnalyzing)] []) Op.tick 2000).getWf "w1" = some w2 ∧
      w2.created_at = wfAnalyzing.created_at) := by
  have h := C8_timestamp_invariant (mkOrch [("w1", wfAnalyzing)] []) Op.tick 2000
    trivial
    (show ∀ p ∈ (mkOrch [("w1", wfAnalyzing)] []).active_workflows,
      p.2.created_at ≤ p.2.updated_at by decide)
    (show ∀ p ∈ (mkOrch [("w1", wfAnalyzing)] []).active_workflows,
      p.2.created_at ≤ 2000 by decide)
  exact ⟨h.1, h.2 "w1" wfAnalyzing rfl⟩

/-! Claim C7. -/

/-- C7: for every inbound failure notification, if a required field
(test_title, status, error, retries, trace_id) is missing or the error field
is not a structured object, the webhook returns a 400 validation error and
the orchestrator state — in particular the workflow store — is completely
unchanged; if validation succeeds, a workflow record keyed by the fresh
workflow id is in the store afterwards and the handler returns a 200 JSON
response with status "success" and that workflow_id. -/
theorem C7_webhook_validation (o : Orch) (body : Payload) (wid : String) (env : CallEnv)
    (now : Nat) (hwid : wid.isEmpty = false) :
    (validate_failure_payload body = false →
      handle_playwright_webhook o body wid env now =
        (o, WebResponse.text 400 "Invalid payload")) ∧
    (validate_failure_payload body = true →
      (∃ w2, (handle_playwright_webhook o body wid env now).1.getWf wid = some w2) ∧
      (handle_playwright_webhook o body wid env now).2 =
        WebResponse.json 200
          [("status", .str "success"), ("workflow_id", .str wid),
           ("message", .str "Incident response workflow started")]) := by
  constructor
  · intro hv
    unfold handle_playwright_webhook
    simp only [hv, Bool.false_eq_true, if_false]
  · intro hv
    unfold handle_playwright_webhook
    simp only [hv, if_true, start_incident_workflow_snd, hwid, Bool.false_eq_true, if_false]
    exact ⟨start_incident_workflow_getWf o _ wid env now, trivial⟩

/-- C7 witness: a valid concrete body creates a record and yields the 200
success response, applied through the amended-free confirmed theorem. -/
theorem C7_witness :
    (validate_failure_payload
        [("test_title", JVal.str "checkout test"), ("status", JVal.str "failed"),
         ("error", JVal.obj [("message", JVal.str "timeout")]),
         ("retries", JVal.num 2), ("trace_id", JVal.str "t-1")] = true →
      (∃ w2, (handle_playwright_webhook (mkOrch [] [])
          [("test_title", JVal.str "checkout test"), ("status", JVal.str "failed"),
           ("error", JVal.obj [("message", JVal.str "timeout")]),
           ("retries", JVal.num 2), ("trace_id", JVal.str "t-1")] "w1" envDown 100).1.getWf
          "w1" = some w2) ∧
      (handle_playwright_webhook (mkOrch [] [])
          [("test_title", JVal.str "checkout test"), ("status", JVal.str "failed"),
           ("error", JVal.obj [("message", JVal.str "timeout")]),
           ("retries", JVal.num 2), ("trace_id", JVal.str "t-1")] "w1" envDown 100).2 =
        WebResponse.json 200
          [("status", .str "success"), ("workflow_id", .str "w1"),
           ("message", .str "Incident response workflow started")]) ∧
    (validate_failure_payload [("test_title", JVal.str "x")] = false →
      handle_playwright_webhook (mkOrch [] []) [("test_title", JVal.str "x")] "w2" envDown
          100 = (mkOrch [] [], WebResponse.text 400 "Invalid payload")) :=
  ⟨(C7_webhook_validation (mkOrch [] []) _ "w1" envDown 100 rfl).2,
   (C7_webhook_validation (mkOrch [] []) _ "w2" envDown 100 rfl).1⟩

/-! Which (from, to) stage pairs a handler records: during the single
webhook-driven cascade every recorded pair is a section 4.1 edge or a jump
to Failed from a non-terminal stage. -/

/-- The fold of the claimed transition relation over a whole step: the new
transition-log entries all satisfy `claimedOK`. -/
def ValidExt (o o2 : Orch) : Prop :=
  ∃ L, o2.transitions = o.transitions ++ L ∧ ∀ t ∈ L, claimedOK t.2.1 t.2.2 = true

theorem validExt_trans (o o2 o3 : Orch) (h1 : ValidExt o o2) (h2 : ValidExt o2 o3) :
    ValidExt o o3 := by
  obtain ⟨L1, e1, a1⟩ := h1
  obtain ⟨L2, e2, a2⟩ := h2
  refine ⟨L1 ++ L2, ?_, ?_⟩
  · rw [e2, e1, List.append_assoc]
  · intro t ht
    rcases List.mem_append.mp ht with h | h
    · exact a1 t h
    · exact a2 t h

theorem validExt_of_trans_eq (o o2 : Orch) (h : o2.transitions = o.transitions) :
    ValidExt o o2 := by
  refine ⟨[], ?_, by simp⟩
  rw [h, List.append_nil]

theorem validExt_upto (o o2 : Orch) (t : Trans)
    (htr : o2.transitions = o.transitions ++ [t])
    (hok : claimedOK t.2.1 t.2.2 = true) : ValidExt o o2 :=
  ⟨[t], htr, by simpa using hok⟩

theorem fail_workflow_validExt (o : Orch) (wid m : String) (now : Nat) {w : WorkflowState}
    (h : o.getWf wid = some w) (hnt : isTerminal w.status = false) :
    ValidExt o (fail_workflow o wid m now) := by
  unfold fail_workflow
  simp only [h]
  apply validExt_upto _ _ (wid, w.status, Status.failed)
  · simp
  · simp [claimedOK, hnt]

theorem complete_workflow_validExt (o : Orch) (wid : String) (r : Payload) (now : Nat)
    (h : ∃ w, o.getWf wid = some w ∧ specEdge w.status Status.completed = true) :
    ValidExt o (complete_workflow o wid r now) := by
  obtain ⟨w, h, hsp⟩ := h
  unfold complete_workflow
  simp only [h]
  apply validExt_upto _ _ (wid, w.status, Status.completed)
  · simp
  · simp [claimedOK, hsp]

theorem handle_execution_complete_validExt (o : Orch) (wid : String) (r : Payload)
    (now : Nat)
    (h : ∃ w, o.getWf wid = some w ∧ w.status = Status.executing) :
    ValidExt o (handle_execution_complete o wid r now) := by
  obtain ⟨w, h, hst⟩ := h
  unfold handle_execution_complete
  simp only [h]
  refine validExt_trans _ _ _ (validExt_of_trans_eq _ _ rfl)
    (complete_workflow_validExt _ wid _ now ⟨_, getWf_setWf_self _ _ _, ?_⟩)
  simp [hst, specEdge]

theorem trigger_remediation_execution_validExt (o : Orch) (wid : String) (env : CallEnv)
    (now : Nat)
    (h : ∃ w, o.getWf wid = some w ∧ w.status = Status.awaiting_approval) :
    ValidExt o (trigger_remediation_execution o wid env now) := by
  obtain ⟨w, h, hst⟩ := h
  unfold trigger_remediation_execution
  simp only [h]
  cases he : o.remediation_agents.isEmpty
  · cases hc : o.a2a_clients.contains "remediation" <;> cases ho : env.execute_outcome <;>
      · simp only [he, Bool.false_eq_true, if_false, a2a_call, hc, ho,
          a2a_clients_setWf, a2a_clients_logEvent, a2a_clients_addTrans]
        refine validExt_trans _ _ _ ?_
          (handle_execution_complete_validExt _ wid _ now ⟨_, getWf_setWf_self _ _ _, rfl⟩)
        apply validExt_upto _ _ (wid, w.status, Status.executing)
        · simp
        · simp [claimedOK, specEdge, hst]
  · simp only [he, if_true]
    exact fail_workflow_validExt o wid _ now h (by simp [hst, isTerminal])

theorem handle_approval_received_validExt (o : Orch) (wid : String) (r : Payload)
    (env : CallEnv) (now : Nat)
    (h : ∃ w, o.getWf wid = some w ∧ w.status = Status.awaiting_approval) :
    ValidExt o (handle_approval_received o wid r env now) := by
  obtain ⟨w, h, hst⟩ := h
  unfold handle_approval_received
  simp only [h]
  cases hd : decisionIsApprove r
  · simp only [hd, Bool.false_eq_true, if_false]
    refine validExt_trans _ _ _ (validExt_of_trans_eq _ _ rfl)
      (complete_workflow_validExt _ wid _ now ⟨_, getWf_setWf_self _ _ _, ?_⟩)
    simp [hst, specEdge]
  · simp only [hd, if_true]
    refine validExt_trans _ _ _ (validExt_of_trans_eq _ _ rfl)
      (trigger_remediation_execution_validExt _ wid env now ⟨_, getWf_setWf_self _ _ _, ?_⟩)
    simp [hst]

theorem trigger_approval_request_validExt (o : Orch) (wid : String) (env : CallEnv)
    (now : Nat)
    (h : ∃ w, o.getWf wid = some w ∧ w.status = Status.proposing) :
    ValidExt o (trigger_approval_request o wid env now) := by
  obtain ⟨w, h, hst⟩ := h
  unfold trigger_approval_request
  simp only [h]
  cases he : o.approval_agents.isEmpty
  · cases hc : o.a2a_clients.contains "approval" <;> cases ho : env.approval_outcome <;>
      · simp only [he, Bool.false_eq_true, if_false, a2a_call, hc, ho,
          a2a_clients_setWf, a2a_clients_logEvent, a2a_clients_addTrans]
        refine validExt_trans _ _ _ ?_
          (handle_approval_received_validExt _ wid _ env now
            ⟨_, getWf_setWf_self _ _ _, rfl⟩)
        apply validExt_upto _ _ (wid, w.status, Status.awaiting_approval)
        · simp
        · simp [claimedOK, specEdge, hst]
  · simp only [he, if_true]
    exact fail_workflow_validExt o wid _ now h (by simp [hst, isTerminal])

theorem handle_remediation_proposed_validExt (o : Orch) (wid : String) (r : Payload)
    (env : CallEnv) (now : Nat)
    (h : ∃ w, o.getWf wid = some w ∧ w.status = Status.proposing) :
    ValidExt o (handle_remediation_proposed o wid r env now) := by
  obtain ⟨w, h, hst⟩ := h
  unfold handle_remediation_proposed
  simp only [h]
  refine validExt_trans _ _ _ (validExt_of_trans_eq _ _ rfl)
    (trigger_approval_request_validExt _ wid env now ⟨_, getWf_setWf_self _ _ _, ?_⟩)
  simp [hst]

theorem trigger_remediation_proposal_validExt (o : Orch) (wid : String) (env : CallEnv)
    (now : Nat)
    (h : ∃ w, o.getWf wid = some w ∧ w.status = Status.analyzing) :
    ValidExt o (trigger_remediation_proposal o wid env now) := by
  obtain ⟨w, h, hst⟩ := h
  unfold trigger_remediation_proposal
  simp only [h]
  cases he : o.remediation_agents.isEmpty
  · cases hc : o.a2a_clients.contains "remediation" <;> cases ho : env.propose_outcome <;>
      · simp only [he, Bool.false_eq_true, if_false, a2a_call, hc, ho,
          a2a_clients_setWf, a2a_clients_logEvent, a2a_clients_addTrans]
        refine validExt_trans _ _ _ ?_
          (handle_remediation_proposed_validExt _ wid _ env now
            ⟨_, getWf_setWf_self _ _ _, rfl⟩)
        apply validExt_upto _ _ (wid, w.status, Status.proposing)
        · simp
        · simp [claimedOK, specEdge, hst]
  · simp only [he, if_true]
    exact fail_workflow_validExt o wid _ now h (by simp [hst, isTerminal])

theorem handle_analysis_complete_validExt (o : Orch) (wid : String) (r : Payload)
    (env : CallEnv) (now : Nat)
    (h : ∃ w, o.getWf wid = some w ∧ w.status = Status.analyzing) :
    ValidExt o (handle_analysis_complete o wid r env now) := by
  obtain ⟨w, h, hst⟩ := h
  unfold handle_analysis_complete
  simp only [h]
  refine validExt_trans _ _ _ (validExt_of_trans_eq _ _ rfl)
    (trigger_remediation_proposal_validExt _ wid env now ⟨_, getWf_setWf_self _ _ _, ?_⟩)
  simp [hst]

theorem trigger_rca_analysis_validExt (o : Orch) (wid : String) (env : CallEnv)
    (now : Nat)
    (h : ∃ w, o.getWf wid = some w ∧ w.status = Status.started) :
    ValidExt o (trigger_rca_analysis o wid env now) := by
  obtain ⟨w, h, hst⟩ := h
  unfold trigger_rca_analysis
  simp only [h]
  cases he : o.rca_agents.isEmpty
  · cases hc : o.a2a_clients.contains "rca" <;> cases ho : env.rca_outcome <;>
      · simp only [he, Bool.false_eq_true, if_false, a2a_call, hc, ho,
          a2a_clients_setWf, a2a_clients_logEvent, a2a_clients_addTrans]
        refine validExt_trans _ _ _ ?_
          (handle_analysis_complete_validExt _ wid _ env now
            ⟨_, getWf_setWf_self _ _ _, rfl⟩)
        apply validExt_upto _ _ (wid, w.status, Status.analyzing)
        · simp
        · simp [claimedOK, specEdge, hst]
  · simp only [he, if_true]
    exact fail_workflow_validExt o wid _ now h (by simp [hst, isTerminal])

theorem start_incident_workflow_validExt (o : Orch) (fp : FailurePayload) (wid : String)
    (env : CallEnv) (now : Nat) :
    ValidExt o (start_incident_workflow o fp wid env now).1 := by
  unfold start_incident_workflow
  exact validExt_trans _ _ _ (validExt_of_trans_eq _ _ rfl)
    (trigger_rca_analysis_validExt _ wid env now ⟨_, getWf_setWf_self _ _ _, rfl⟩)

theorem handle_playwright_webhook_validExt (o : Orch) (body : Payload) (wid : String)
    (env : CallEnv) (now : Nat) :
    ValidExt o (handle_playwright_webhook o body wid env now).1 := by
  unfold handle_playwright_webhook
  cases hv : validate_failure_payload body
  · simp only [Bool.false_eq_true, if_false]
    exact validExt_of_trans_eq _ _ rfl
  · simp only [if_true]
    split
    · exact start_incident_workflow_validExt _ _ wid env now
    · exact start_incident_workflow_validExt _ _ wid env now

/-! Claim C3. -/

/-- C3 counterexample: a stage-update for a workflow already in the terminal
Completed stage (still in the store before eviction) is processed by the
update handler, which mutates the record again and records the transition
Completed to Proposing — a pair that is neither a section 4.1 edge nor a
jump to Failed from a non-terminal stage. -/
theorem C3_counterexample :
    (("w1", Status.completed, Status.proposing) ∈
      (handle_update_workflow_status (mkOrch [("w1", wfCompleted)] []) "t1" "w1"
        "analysis_complete" [("classification", JVal.str "x")] envDown 30).1.transitions) ∧
    claimedOK Status.completed Status.proposing = false :=
  ⟨by decide, rfl⟩

/-- C3 (amended): every stage transition recorded during a single
webhook-initiated cascade is a section 4.1 edge or a jump to Failed from a
non-terminal stage; but the handlers guard only on the presence of the
workflow id, not on its current stage, so a stage-update arriving for a
workflow already in the terminal Completed stage (before eviction) still
mutates the record and re-enters Proposing. -/
theorem C3_cascade_edges_but_terminal_mutable :
    (∀ (o : Orch) (body : Payload) (wid : String) (env : CallEnv) (now : Nat),
      ValidExt o (handle_playwright_webhook o body wid env now).1) ∧
    (∀ (o : Orch) (wid : String) (d : Payload) (env : CallEnv) (now : Nat)
      (w : WorkflowState), o.getWf wid = some w → w.status = Status.completed →
      o.remediation_agents.isEmpty = false →
      o.transitions ++ [(wid, Status.completed, Status.proposing)] <+:
        (handle_analysis_complete o wid d env now).transitions) := by
  constructor
  · exact handle_playwright_webhook_validExt
  · intro o wid d env now w h hst hrem
    exact handle_analysis_complete_firstTrans o wid d env now _ _ w h hrem rfl hst

/-- C3 witness: the amended theorem applied to a concrete webhook call and a
concrete terminal workflow hit by a late analysis update. -/
theorem C3_witness :
    ValidExt (mkOrch [] [])
      (handle_playwright_webhook (mkOrch [] []) [] "w1" envDown 3).1 ∧
    ((mkOrch [("w1", wfCompleted)] []).transitions ++
      [("w1", Status.completed, Status.proposing)] <+:
      (handle_analysis_complete (mkOrch [("w1", wfCompleted)] []) "w1" [] envDown
        30).transitions) :=
  ⟨C3_cascade_edges_but_terminal_mutable.1 (mkOrch [] []) [] "w1" envDown 3,
   C3_cascade_edges_but_terminal_mutable.2 (mkOrch [("w1", wfCompleted)] []) "w1" [] envDown
     30 wfCompleted rfl rfl rfl⟩

end SelfHealGKE
